import Mathlib

/-! # Dio driver for the ESP32 (AUTOSAR style): embedding of `Dio.c` / `Dio_Cfg.h`

The driver keeps two private variables (`Dio_PortChannels`, `Dio_Status`), touches four GPIO
registers (`GPIO_OUT_REG`, `GPIO_OUT1_REG`, `GPIO_IN_REG`, `GPIO_IN1_REG`) and calls
`Det_ReportError` on contract violations.  All of this is made explicit in `DioState`; the
functions of `Dio.c` become state transformers.  A table access `Dio_PortChannels[ChannelId]`
through the null pointer or past the end of the table has no defined result in C, so the channel
services return an `Option`: `none` stands for such an access.

Machine integers (`uint8`, `uint32`) are natural numbers; register words are reduced modulo
`2 ^ 32` wherever a 32-bit operation could overflow.
-/

namespace Dio

/-! ## Constants -/

/-- Modelled from the spec: the macro `REG_SIZE` (the bank width `W`) is declared in `Dio.h`,
which is not among the sources; the spec gives `W = 32`. -/
def REG_SIZE : Nat := 32

/-- Number of pins of the target, `DIO_PINS_MAX_NUM` in `Dio_Cfg.h`. -/
def DIO_PINS_MAX_NUM : Nat := 40

/-- Number of the configured Dio channels, `DIO_CONFIGURED_CHANNLES` in `Dio_Cfg.h`. -/
def DIO_CONFIGURED_CHANNLES : Nat := 2

/-- Pin number of the first configured channel, `DioConf_LD1_PIN_NUM` in `Dio_Cfg.h`. -/
def DioConf_LD1_PIN_NUM : Nat := 2

/-- Pin number of the second configured channel, `DioConf_SW1_PIN_NUM` in `Dio_Cfg.h`. -/
def DioConf_SW1_PIN_NUM : Nat := 39

/-- Modelled from the spec: `STD_HIGH` comes from `Std_Types.h`, which is not among the sources;
it is the logical level HIGH of a `Dio_LevelType` (an 8-bit integer), the value of a set bit. -/
def STD_HIGH : Nat := 1

/-- Modelled from the spec: `STD_LOW` comes from `Std_Types.h`, which is not among the sources;
it is the logical level LOW, the default level, the value of a clear bit. -/
def STD_LOW : Nat := 0

/-- Modelled from the spec: `DIO_INITIALIZED` is declared in `Dio.h`, which is not among the
sources; it is the `uint8` value of `Dio_Status` that stands for INITIALIZED. -/
def DIO_INITIALIZED : Nat := 1

/-- Modelled from the spec: `DIO_NOT_INITIALIZED` is declared in `Dio.h`, which is not among the
sources; it is the `uint8` value of `Dio_Status` that stands for NOT_INITIALIZED. -/
def DIO_NOT_INITIALIZED : Nat := 0

/-- Modelled from the spec: `DIO_MODULE_ID` is declared in `Dio.h`, which is not among the
sources; the module id under which the driver reports (120 is the AUTOSAR id of Dio). -/
def DIO_MODULE_ID : Nat := 120

/-- Modelled from the spec: `DIO_INSTANCE_ID` is declared in `Dio.h`, which is not among the
sources; the instance id under which the driver reports. -/
def DIO_INSTANCE_ID : Nat := 0

/-- Modelled from the spec: the service (operation) identifiers are declared in `Dio.h`, which is
not among the sources; they are kept symbolic, one constructor for each macro name. -/
inductive Dio_ServiceId where
  | DIO_READ_CHANNEL_SID
  | DIO_WRITE_CHANNEL_SID
  | DIO_INIT_SID
  | DIO_FLIP_CHANNEL_SID
  | DIO_GET_VERSION_INFO_SID
  deriving DecidableEq, Repr

/-- Modelled from the spec: the development error codes are declared in `Dio.h`, which is not
among the sources; they are kept symbolic, one constructor for each macro name
(`ParamConfig`, `Uninitialized`, `InvalidChannelId`, `ParamPointer` in the spec). -/
inductive Dio_ErrorId where
  | DIO_E_PARAM_INVALID_CHANNEL_ID
  | DIO_E_PARAM_CONFIG
  | DIO_E_PARAM_POINTER
  | DIO_E_UNINIT
  deriving DecidableEq, Repr

export Dio_ServiceId (DIO_READ_CHANNEL_SID DIO_WRITE_CHANNEL_SID DIO_INIT_SID DIO_FLIP_CHANNEL_SID
  DIO_GET_VERSION_INFO_SID)
export Dio_ErrorId (DIO_E_PARAM_INVALID_CHANNEL_ID DIO_E_PARAM_CONFIG DIO_E_PARAM_POINTER
  DIO_E_UNINIT)

/-! ## Data model -/

/-- One call of `Det_ReportError(ModuleId, InstanceId, ApiId, ErrorId)`. -/
structure Det_Report where
  ModuleId : Nat
  InstanceId : Nat
  ApiId : Dio_ServiceId
  ErrorId : Dio_ErrorId
  deriving DecidableEq, Repr

/-- Modelled from the spec: the type `Dio_ConfigChannel` is declared in `Dio.h`, which is not
among the sources; one channel configuration entry, of which `Dio.c` reads the field `Pin_Num`. -/
structure Dio_ConfigChannel where
  Pin_Num : Nat
  deriving DecidableEq, Repr

/-- Modelled from the spec: the type `Dio_ConfigType` is declared in `Dio.h`, which is not among
the sources; the configuration object, of which `Dio.c` reads the channel table `Channels`. -/
structure Dio_ConfigType where
  Channels : List Dio_ConfigChannel
  deriving DecidableEq, Repr

/-- Modelled from the spec: the post-build configuration lives in `Dio_PBcfg.c`, which is not
among the sources; the table of the spec scenario, channel 0 on pin 2 and channel 1 on pin 39
(the two pin numbers of `Dio_Cfg.h`). -/
def Dio_Configuration : Dio_ConfigType :=
  { Channels := [{ Pin_Num := DioConf_LD1_PIN_NUM }, { Pin_Num := DioConf_SW1_PIN_NUM }] }

/-- Everything the driver reads or writes: its two private variables, the four GPIO registers and
the reports handed to the diagnostic collaborator, oldest first.  `Dio_PortChannels = none` is
the null pointer. -/
structure DioState where
  Dio_PortChannels : Option (List Dio_ConfigChannel)
  Dio_Status : Nat
  GPIO_OUT_REG : Nat
  GPIO_OUT1_REG : Nat
  GPIO_IN_REG : Nat
  GPIO_IN1_REG : Nat
  Det_Errors : List Det_Report
  deriving DecidableEq, Repr

/-- State at start-up: `Dio_PortChannels = NULL_PTR`, `Dio_Status = DIO_NOT_INITIALIZED`, no report
yet, and whatever the registers hold. -/
def Dio_Startup (out out1 inp inp1 : Nat) : DioState :=
  { Dio_PortChannels := none
    Dio_Status := DIO_NOT_INITIALIZED
    GPIO_OUT_REG := out
    GPIO_OUT1_REG := out1
    GPIO_IN_REG := inp
    GPIO_IN1_REG := inp1
    Det_Errors := [] }

/-- The four registers hold 32-bit words. -/
def RegsAreWords (s : DioState) : Prop :=
  s.GPIO_OUT_REG < 2 ^ 32 ∧ s.GPIO_OUT1_REG < 2 ^ 32 ∧
    s.GPIO_IN_REG < 2 ^ 32 ∧ s.GPIO_IN1_REG < 2 ^ 32

instance (s : DioState) : Decidable (RegsAreWords s) := by
  unfold RegsAreWords; infer_instance

/-! ## Bit macros -/

/-- Modelled from the spec: the bit macros are not among the sources; `BIT_MASK bit` is the
operand `1 << bit` they share, as a 32-bit word.  For `bit >= 32` the C shift has no defined
value; the model takes the truncated word, which is zero. -/
def BIT_MASK (bit : Nat) : Nat := (1 <<< bit) % 2 ^ 32

/-- Modelled from the spec: the macro `SET_BIT` is not among the sources; it sets the bit of the
register, `reg |= (1 << bit)`. -/
def SET_BIT (reg bit : Nat) : Nat := reg ||| BIT_MASK bit

/-- Modelled from the spec: the macro `CLEAR_BIT` is not among the sources; it clears the bit of
the register, `reg &= ~(1 << bit)`, the complement taken on 32 bits. -/
def CLEAR_BIT (reg bit : Nat) : Nat := reg &&& ((2 ^ 32 - 1) ^^^ BIT_MASK bit)

/-- Modelled from the spec: the macro `BIT_IS_SET` is not among the sources; it tells whether the
bit of the register is set, `reg & (1 << bit)` being non-zero. -/
def BIT_IS_SET (reg bit : Nat) : Bool := (reg &&& BIT_MASK bit) != 0

/-- Modelled from the spec: the macro `BIT_IS_CLEAR` is not among the sources; it tells whether
the bit of the register is clear, `!(reg & (1 << bit))`. -/
def BIT_IS_CLEAR (reg bit : Nat) : Bool := (reg &&& BIT_MASK bit) == 0

/-- Modelled from the spec: the macro `READ_BIT` is not among the sources; it yields the value of
the bit of the register, `(reg & (1 << bit)) >> bit`, that is HIGH if set and LOW if clear. -/
def READ_BIT (reg bit : Nat) : Nat := (reg &&& BIT_MASK bit) >>> bit

/-! ## Operations -/

/-- The call `Det_ReportError(ModuleId, InstanceId, ApiId, ErrorId)`: the report is handed to the
diagnostic collaborator, nothing else changes. -/
def Det_ReportError (s : DioState) (ModuleId InstanceId : Nat) (ApiId : Dio_ServiceId)
    (ErrorId : Dio_ErrorId) : DioState :=
  { s with Det_Errors := s.Det_Errors ++ [⟨ModuleId, InstanceId, ApiId, ErrorId⟩] }

/-- The access `Dio_PortChannels[ChannelId].Pin_Num`; `none` when the pointer is null or the index
is past the end of the table. -/
def Pin_Num (s : DioState) (ChannelId : Nat) : Option Nat :=
  match s.Dio_PortChannels with
  | none => none
  | some Channels => (Channels[ChannelId]?).map Dio_ConfigChannel.Pin_Num

/-- `Dio_Init(ConfigPtr)`, with `ConfigPtr = none` for `NULL_PTR`. -/
def Dio_Init (s : DioState) (ConfigPtr : Option Dio_ConfigType) : DioState :=
  match ConfigPtr with
  | none => Det_ReportError s DIO_MODULE_ID DIO_INSTANCE_ID DIO_INIT_SID DIO_E_PARAM_CONFIG
  | some Config =>
    { s with Dio_Status := DIO_INITIALIZED, Dio_PortChannels := some Config.Channels }

/-- The development error checks that open `Dio_WriteChannel`, `Dio_ReadChannel` and
`Dio_FlipChannel` (the block under `DIO_DEV_ERROR_DETECT`, which `Dio_Cfg.h` switches on), with
the service id `ApiId` the function reports under.  Yields the state with the reports made and
the local flag `error`. -/
def Dio_DetChecks (s : DioState) (ApiId : Dio_ServiceId) (ChannelId : Nat) : DioState × Bool :=
  let error := false
  let r1 : DioState × Bool :=
    if DIO_NOT_INITIALIZED = s.Dio_Status then
      (Det_ReportError s DIO_MODULE_ID DIO_INSTANCE_ID ApiId DIO_E_UNINIT, true)
    else (s, error)
  if DIO_CONFIGURED_CHANNLES ≤ ChannelId then
    (Det_ReportError r1.1 DIO_MODULE_ID DIO_INSTANCE_ID ApiId DIO_E_PARAM_INVALID_CHANNEL_ID, true)
  else r1

/-- `Dio_WriteChannel(ChannelId, Level)`. -/
def Dio_WriteChannel (s : DioState) (ChannelId Level : Nat) : Option DioState :=
  let r := Dio_DetChecks s DIO_WRITE_CHANNEL_SID ChannelId
  let s := r.1
  if r.2 = false then
    if Level = STD_HIGH then
      (Pin_Num s ChannelId).bind fun pin =>
        if pin < REG_SIZE then
          some { s with GPIO_OUT_REG := SET_BIT s.GPIO_OUT_REG pin }
        else if pin < DIO_PINS_MAX_NUM then
          some { s with GPIO_OUT1_REG := SET_BIT s.GPIO_OUT1_REG (pin - REG_SIZE) }
        else some s
    else if Level = STD_LOW then
      (Pin_Num s ChannelId).bind fun pin =>
        if pin < REG_SIZE then
          some { s with GPIO_OUT_REG := CLEAR_BIT s.GPIO_OUT_REG pin }
        else if pin < DIO_PINS_MAX_NUM then
          some { s with GPIO_OUT1_REG := CLEAR_BIT s.GPIO_OUT1_REG (pin - REG_SIZE) }
        else some s
    else some s
  else some s

/-- `Dio_ReadChannel(ChannelId)`: the state afterwards and the returned level. -/
def Dio_ReadChannel (s : DioState) (ChannelId : Nat) : Option (DioState × Nat) :=
  let output := STD_LOW
  let r := Dio_DetChecks s DIO_READ_CHANNEL_SID ChannelId
  let s := r.1
  if r.2 = false then
    (Pin_Num s ChannelId).bind fun pin =>
      if pin < REG_SIZE then
        some (s, READ_BIT s.GPIO_IN_REG pin)
      else if pin < DIO_PINS_MAX_NUM then
        some (s, READ_BIT s.GPIO_IN1_REG (pin - REG_SIZE))
      else some (s, output)
  else some (s, output)

/-- `Dio_FlipChannel(ChannelId)`: the state afterwards and the returned level.  Both tests of the
current level are made on `GPIO_OUT_REG` with the pin number itself, as in the source; the
reports are made under `DIO_WRITE_CHANNEL_SID`, as in the source. -/
def Dio_FlipChannel (s : DioState) (ChannelId : Nat) : Option (DioState × Nat) :=
  let output := STD_LOW
  let r := Dio_DetChecks s DIO_WRITE_CHANNEL_SID ChannelId
  let s := r.1
  if r.2 = false then
    (Pin_Num s ChannelId).bind fun pin =>
      if BIT_IS_CLEAR s.GPIO_OUT_REG pin then
        if pin < REG_SIZE then
          some ({ s with GPIO_OUT_REG := SET_BIT s.GPIO_OUT_REG pin }, STD_HIGH)
        else if pin < DIO_PINS_MAX_NUM then
          some ({ s with GPIO_OUT1_REG := SET_BIT s.GPIO_OUT1_REG (pin - REG_SIZE) }, STD_HIGH)
        else some (s, output)
      else if BIT_IS_SET s.GPIO_OUT_REG pin then
        if pin < REG_SIZE then
          some ({ s with GPIO_OUT_REG := CLEAR_BIT s.GPIO_OUT_REG pin }, STD_LOW)
        else if pin < DIO_PINS_MAX_NUM then
          some ({ s with GPIO_OUT1_REG := CLEAR_BIT s.GPIO_OUT1_REG (pin - REG_SIZE) }, STD_LOW)
        else some (s, output)
      else some (s, output)
  else some (s, output)

/-- Modelled from the spec: the type `Std_VersionInfoType` comes from `Std_Types.h`, which is not
among the sources; the record `Dio_GetVersionInfo` fills in. -/
structure Std_VersionInfoType where
  vendorID : Nat
  moduleID : Nat
  sw_major_version : Nat
  sw_minor_version : Nat
  sw_patch_version : Nat
  deriving DecidableEq, Repr

/-- Modelled from the spec: `DIO_SW_MAJOR_VERSION` is declared in `Dio.h`, which is not among the
sources; `Dio_Cfg.h` gives the module version 1.0.0. -/
def DIO_SW_MAJOR_VERSION : Nat := 1

/-- Modelled from the spec: `DIO_SW_MINOR_VERSION` is declared in `Dio.h`, which is not among the
sources; `Dio_Cfg.h` gives the module version 1.0.0. -/
def DIO_SW_MINOR_VERSION : Nat := 0

/-- Modelled from the spec: `DIO_SW_PATCH_VERSION` is declared in `Dio.h`, which is not among the
sources; `Dio_Cfg.h` gives the module version 1.0.0. -/
def DIO_SW_PATCH_VERSION : Nat := 0

/-- `Dio_GetVersionInfo(versioninfo)`, with `versioninfo = none` for `NULL_PTR`: the state
afterwards and the record behind the pointer.  The vendor id `DIO_VENDOR_ID` is declared in
`Dio.h`, which is not among the sources, and is taken as a parameter; the casts to `uint16` and
`uint8` are reductions modulo `2 ^ 16` and `2 ^ 8`. -/
def Dio_GetVersionInfo (DIO_VENDOR_ID : Nat) (s : DioState)
    (versioninfo : Option Std_VersionInfoType) : DioState × Option Std_VersionInfoType :=
  match versioninfo with
  | none =>
    (Det_ReportError s DIO_MODULE_ID DIO_INSTANCE_ID DIO_GET_VERSION_INFO_SID
      DIO_E_PARAM_POINTER, none)
  | some _ =>
    (s, some
      { vendorID := DIO_VENDOR_ID % 2 ^ 16
        moduleID := DIO_MODULE_ID % 2 ^ 16
        sw_major_version := DIO_SW_MAJOR_VERSION % 2 ^ 8
        sw_minor_version := DIO_SW_MINOR_VERSION % 2 ^ 8
        sw_patch_version := DIO_SW_PATCH_VERSION % 2 ^ 8 })

/-- Modelled from the spec: the reference program of the flip service, in the words of the spec:
`level := ReadOutputBit(c)`, the resolved bit of the resolved output bank (bank 0 at bit `pin`
when `pin < W`, bank 1 at bit `pin - W` when `pin < P`), as a level. -/
def ReadOutputBit (s : DioState) (ChannelId : Nat) : Option Nat :=
  (Pin_Num s ChannelId).bind fun pin =>
    if pin < REG_SIZE then some (READ_BIT s.GPIO_OUT_REG pin)
    else if pin < DIO_PINS_MAX_NUM then some (READ_BIT s.GPIO_OUT1_REG (pin - REG_SIZE))
    else none

/-- Modelled from the spec: the reference program of the flip service, in the words of the spec:
`level := ReadOutputBit(c); if level == LOW then WriteChannel(c, HIGH) else WriteChannel(c, LOW)`,
returning the new level. -/
def Flip_Reference (s : DioState) (ChannelId : Nat) : Option (DioState × Nat) :=
  (ReadOutputBit s ChannelId).bind fun level =>
    if level = STD_LOW then
      (Dio_WriteChannel s ChannelId STD_HIGH).map fun t => (t, STD_HIGH)
    else
      (Dio_WriteChannel s ChannelId STD_LOW).map fun t => (t, STD_LOW)

/-- An initialised state used to exercise the services: the configuration of the spec scenario
with `GPIO_OUT_REG = 5`, `GPIO_OUT1_REG = 128`, `GPIO_IN_REG = 4`, `GPIO_IN1_REG = 128`. -/
def Dio_Example : DioState :=
  Dio_Init (Dio_Startup 5 128 4 128) (some Dio_Configuration)

/-- An initialised state on which the flip service and its reference program part: the
configuration of the spec scenario, bit 7 of `GPIO_OUT1_REG` set (the level of channel 1 on
pin 39 is HIGH) and `GPIO_OUT_REG = 0`. -/
def Dio_FlipFailing : DioState :=
  Dio_Init (Dio_Startup 0 128 0 0) (some Dio_Configuration)

/-! ## The module as a state machine -/

/-- The two private variables fit together: either the driver is as at start-up
(`Dio_PortChannels` is the null pointer and `Dio_Status` is `DIO_NOT_INITIALIZED`) or it is
initialised on a channel table of `DIO_CONFIGURED_CHANNLES` entries. -/
def Dio_Consistent (s : DioState) : Prop :=
  (s.Dio_PortChannels = none ∧ s.Dio_Status = DIO_NOT_INITIALIZED) ∨
    (s.Dio_Status = DIO_INITIALIZED ∧
      (s.Dio_PortChannels.map List.length) = some DIO_CONFIGURED_CHANNLES)

instance (s : DioState) : Decidable (Dio_Consistent s) := by
  unfold Dio_Consistent; infer_instance

/-- One call of a service of the module, with its arguments.  `GetVersionInfo` carries the vendor
id the build was given. -/
inductive Dio_Op where
  | Init (ConfigPtr : Option Dio_ConfigType)
  | WriteChannel (ChannelId Level : Nat)
  | ReadChannel (ChannelId : Nat)
  | FlipChannel (ChannelId : Nat)
  | GetVersionInfo (DIO_VENDOR_ID : Nat) (versioninfo : Option Std_VersionInfoType)
  deriving DecidableEq, Repr

/-- The state after one call; `none` when the call makes a table access that has no result. -/
def Dio_Step (s : DioState) : Dio_Op → Option DioState
  | .Init ConfigPtr => some (Dio_Init s ConfigPtr)
  | .WriteChannel ChannelId Level => Dio_WriteChannel s ChannelId Level
  | .ReadChannel ChannelId => (Dio_ReadChannel s ChannelId).map Prod.fst
  | .FlipChannel ChannelId => (Dio_FlipChannel s ChannelId).map Prod.fst
  | .GetVersionInfo DIO_VENDOR_ID versioninfo =>
    some (Dio_GetVersionInfo DIO_VENDOR_ID s versioninfo).1

/-- The state after a sequence of calls, first call first; `none` as soon as one call makes a
table access that has no result. -/
def Dio_Run (s : DioState) : List Dio_Op → Option DioState
  | [] => some s
  | op :: ops => (Dio_Step s op).bind fun t => Dio_Run t ops

/-- The call hands over a channel table of `DIO_CONFIGURED_CHANNLES` entries, if it hands over a
configuration at all. -/
def Dio_Op.TableComplete : Dio_Op → Prop
  | .Init (some Config) => Config.Channels.length = DIO_CONFIGURED_CHANNLES
  | _ => True

instance : DecidablePred Dio_Op.TableComplete := fun op => by
  cases op with
  | Init ConfigPtr =>
    cases ConfigPtr with
    | none => exact isTrue trivial
    | some Config =>
      exact inferInstanceAs (Decidable (Config.Channels.length = DIO_CONFIGURED_CHANNLES))
  | WriteChannel _ _ => exact isTrue trivial
  | ReadChannel _ => exact isTrue trivial
  | FlipChannel _ => exact isTrue trivial
  | GetVersionInfo _ _ => exact isTrue trivial

/-- A sequence of calls used to exercise the module: a failed initialisation, a write before
initialisation, the initialisation on the table of the spec scenario, then a flip, a read with a
channel id out of range, a version query and a second failed initialisation. -/
def Dio_ExampleCalls : List Dio_Op :=
  [.Init none, .WriteChannel 0 1, .Init (some Dio_Configuration), .FlipChannel 1,
    .ReadChannel 5, .GetVersionInfo 0 none, .Init none]

/-- The call performs the access `Dio_PortChannels[ChannelId]` in state `s`: with the null pointer
in the place of the table the call has no result, and a table access is the only thing that
leaves a call without a result. -/
def Dio_IndexesTable (s : DioState) (op : Dio_Op) : Bool :=
  (Dio_Step { s with Dio_PortChannels := none } op).isNone

/-- The state with the contents of its four registers replaced. -/
def Dio_WithRegs (s : DioState) (out out1 inp inp1 : Nat) : DioState :=
  { s with
    GPIO_OUT_REG := out
    GPIO_OUT1_REG := out1
    GPIO_IN_REG := inp
    GPIO_IN1_REG := inp1 }

/-- The state with its two input registers replaced by the output registers of the same bank: the
loop-back harness of the spec, on which the input mirrors the output. -/
def Dio_LoopBack (s : DioState) : DioState :=
  { s with GPIO_IN_REG := s.GPIO_OUT_REG, GPIO_IN1_REG := s.GPIO_OUT1_REG }

/-! ## Bit-level facts -/

theorem BIT_MASK_of_lt {bit : Nat} (h : bit < 32) : BIT_MASK bit = 2 ^ bit := by
  unfold BIT_MASK
  rw [Nat.one_shiftLeft]
  exact Nat.mod_eq_of_lt (Nat.pow_lt_pow_right (by decide) h)

theorem testBit_SET_BIT {reg bit : Nat} (h : bit < 32) (j : Nat) :
    (SET_BIT reg bit).testBit j = (decide (j = bit) || reg.testBit j) := by
  unfold SET_BIT
  rw [BIT_MASK_of_lt h, Nat.testBit_or, Nat.testBit_two_pow, Bool.or_comm]
  simp [eq_comm]

theorem testBit_CLEAR_BIT {reg bit : Nat} (h : bit < 32) (hr : reg < 2 ^ 32) (j : Nat) :
    (CLEAR_BIT reg bit).testBit j = (!decide (j = bit) && reg.testBit j) := by
  unfold CLEAR_BIT
  rw [BIT_MASK_of_lt h, Nat.testBit_and, Nat.testBit_xor, Nat.testBit_two_pow_sub_one,
    Nat.testBit_two_pow]
  by_cases hj : j < 32
  · by_cases hb : bit = j
    · subst hb; simp [h]
    · have : ¬ j = bit := fun e => hb e.symm
      simp [hj, hb, this]
  · have : reg.testBit j = false :=
      Nat.testBit_lt_two_pow (lt_of_lt_of_le hr (Nat.pow_le_pow_right (by decide) (by omega)))
    simp [this]

theorem SET_BIT_lt {reg bit : Nat} (hr : reg < 2 ^ 32) : SET_BIT reg bit < 2 ^ 32 :=
  Nat.or_lt_two_pow hr (Nat.mod_lt _ (by decide))

theorem CLEAR_BIT_lt {reg bit : Nat} (hr : reg < 2 ^ 32) : CLEAR_BIT reg bit < 2 ^ 32 :=
  lt_of_le_of_lt Nat.and_le_left hr

theorem SET_BIT_idem (reg bit : Nat) : SET_BIT (SET_BIT reg bit) bit = SET_BIT reg bit := by
  unfold SET_BIT
  exact Nat.eq_of_testBit_eq fun j => by simp [Bool.or_assoc]

theorem CLEAR_BIT_idem (reg bit : Nat) : CLEAR_BIT (CLEAR_BIT reg bit) bit = CLEAR_BIT reg bit := by
  unfold CLEAR_BIT
  exact Nat.eq_of_testBit_eq fun j => by simp [Bool.and_assoc]

theorem BIT_IS_SET_of_lt {reg bit : Nat} (h : bit < 32) :
    BIT_IS_SET reg bit = reg.testBit bit := by
  unfold BIT_IS_SET
  rw [BIT_MASK_of_lt h, Nat.and_two_pow]
  cases reg.testBit bit <;> simp

theorem BIT_IS_CLEAR_of_lt {reg bit : Nat} (h : bit < 32) :
    BIT_IS_CLEAR reg bit = !reg.testBit bit := by
  unfold BIT_IS_CLEAR
  rw [BIT_MASK_of_lt h, Nat.and_two_pow]
  cases reg.testBit bit <;> simp

theorem READ_BIT_of_lt {reg bit : Nat} (h : bit < 32) :
    READ_BIT reg bit = if reg.testBit bit = true then STD_HIGH else STD_LOW := by
  unfold READ_BIT
  rw [BIT_MASK_of_lt h, Nat.and_two_pow]
  cases reg.testBit bit <;> simp [STD_HIGH, STD_LOW, Nat.shiftRight_eq_div_pow]

/-! ## The development error checks -/

theorem Dio_DetChecks_pass {s : DioState} {ChannelId : Nat} (ApiId : Dio_ServiceId)
    (hs : s.Dio_Status = DIO_INITIALIZED) (hc : ChannelId < DIO_CONFIGURED_CHANNLES) :
    Dio_DetChecks s ApiId ChannelId = (s, false) := by
  unfold Dio_DetChecks
  have h1 : ¬ DIO_NOT_INITIALIZED = s.Dio_Status := by
    rw [hs]; decide
  have h2 : ¬ DIO_CONFIGURED_CHANNLES ≤ ChannelId := Nat.not_le.mpr hc
  simp [h1, h2]

/-! ## The services once the checks have passed -/

theorem Dio_WriteChannel_HIGH_eq {s : DioState} {c p : Nat}
    (hs : s.Dio_Status = DIO_INITIALIZED) (hc : c < DIO_CONFIGURED_CHANNLES)
    (hp : Pin_Num s c = some p) :
    Dio_WriteChannel s c STD_HIGH =
      if p < REG_SIZE then some { s with GPIO_OUT_REG := SET_BIT s.GPIO_OUT_REG p }
      else if p < DIO_PINS_MAX_NUM then
        some { s with GPIO_OUT1_REG := SET_BIT s.GPIO_OUT1_REG (p - REG_SIZE) }
      else some s := by
  unfold Dio_WriteChannel
  simp [Dio_DetChecks_pass DIO_WRITE_CHANNEL_SID hs hc, hp]

theorem Dio_WriteChannel_LOW_eq {s : DioState} {c p : Nat}
    (hs : s.Dio_Status = DIO_INITIALIZED) (hc : c < DIO_CONFIGURED_CHANNLES)
    (hp : Pin_Num s c = some p) :
    Dio_WriteChannel s c STD_LOW =
      if p < REG_SIZE then some { s with GPIO_OUT_REG := CLEAR_BIT s.GPIO_OUT_REG p }
      else if p < DIO_PINS_MAX_NUM then
        some { s with GPIO_OUT1_REG := CLEAR_BIT s.GPIO_OUT1_REG (p - REG_SIZE) }
      else some s := by
  unfold Dio_WriteChannel
  have h : ¬ STD_LOW = STD_HIGH := by decide
  simp [Dio_DetChecks_pass DIO_WRITE_CHANNEL_SID hs hc, hp, h]

theorem Dio_ReadChannel_eq {s : DioState} {c p : Nat}
    (hs : s.Dio_Status = DIO_INITIALIZED) (hc : c < DIO_CONFIGURED_CHANNLES)
    (hp : Pin_Num s c = some p) :
    Dio_ReadChannel s c =
      if p < REG_SIZE then some (s, READ_BIT s.GPIO_IN_REG p)
      else if p < DIO_PINS_MAX_NUM then some (s, READ_BIT s.GPIO_IN1_REG (p - REG_SIZE))
      else some (s, STD_LOW) := by
  unfold Dio_ReadChannel
  simp [Dio_DetChecks_pass DIO_READ_CHANNEL_SID hs hc, hp]

/-! ## Writing a channel -/

/-- C1: in an initialised state, for a configured channel `c` whose pin `p` is below the bank
width, `Dio_WriteChannel(c, HIGH)` leaves `GPIO_OUT_REG` equal to its old value with bit `p` set
and `Dio_WriteChannel(c, LOW)` leaves it equal to its old value with bit `p` cleared; nothing else
in the state changes (the other output register and both input registers in particular). -/
theorem Dio_WriteChannel_bank0 (s : DioState) (c p : Nat)
    (hs : s.Dio_Status = DIO_INITIALIZED) (hc : c < DIO_CONFIGURED_CHANNLES)
    (hp : Pin_Num s c = some p) (hW : p < REG_SIZE) (hr : RegsAreWords s) :
    (∃ out, Dio_WriteChannel s c STD_HIGH = some { s with GPIO_OUT_REG := out } ∧
        ∀ j, out.testBit j = (decide (j = p) || s.GPIO_OUT_REG.testBit j)) ∧
    (∃ out, Dio_WriteChannel s c STD_LOW = some { s with GPIO_OUT_REG := out } ∧
        ∀ j, out.testBit j = (!decide (j = p) && s.GPIO_OUT_REG.testBit j)) := by
  have hW32 : p < 32 := hW
  refine ⟨⟨SET_BIT s.GPIO_OUT_REG p, ?_, fun j => testBit_SET_BIT hW32 j⟩,
    ⟨CLEAR_BIT s.GPIO_OUT_REG p, ?_, fun j => testBit_CLEAR_BIT hW32 hr.1 j⟩⟩
  · rw [Dio_WriteChannel_HIGH_eq hs hc hp, if_pos hW]
  · rw [Dio_WriteChannel_LOW_eq hs hc hp, if_pos hW]

/-- C2: in an initialised state, for a configured channel `c` whose pin `p` satisfies
`REG_SIZE <= p < DIO_PINS_MAX_NUM`, `Dio_WriteChannel(c, HIGH)` sets exactly bit `p - REG_SIZE`
of `GPIO_OUT1_REG` and `Dio_WriteChannel(c, LOW)` clears exactly that bit; nothing else in the
state changes (`GPIO_OUT_REG` and both input registers in particular). -/
theorem Dio_WriteChannel_bank1 (s : DioState) (c p : Nat)
    (hs : s.Dio_Status = DIO_INITIALIZED) (hc : c < DIO_CONFIGURED_CHANNLES)
    (hp : Pin_Num s c = some p) (hW : REG_SIZE ≤ p) (hP : p < DIO_PINS_MAX_NUM)
    (hr : RegsAreWords s) :
    (∃ out1, Dio_WriteChannel s c STD_HIGH = some { s with GPIO_OUT1_REG := out1 } ∧
        ∀ j, out1.testBit j = (decide (j = p - REG_SIZE) || s.GPIO_OUT1_REG.testBit j)) ∧
    (∃ out1, Dio_WriteChannel s c STD_LOW = some { s with GPIO_OUT1_REG := out1 } ∧
        ∀ j, out1.testBit j = (!decide (j = p - REG_SIZE) && s.GPIO_OUT1_REG.testBit j)) := by
  have hb : p - REG_SIZE < 32 := by
    unfold REG_SIZE DIO_PINS_MAX_NUM at *; omega
  have hn : ¬ p < REG_SIZE := Nat.not_lt.mpr hW
  refine ⟨⟨SET_BIT s.GPIO_OUT1_REG (p - REG_SIZE), ?_, fun j => testBit_SET_BIT hb j⟩,
    ⟨CLEAR_BIT s.GPIO_OUT1_REG (p - REG_SIZE), ?_, fun j => testBit_CLEAR_BIT hb hr.2.1 j⟩⟩
  · rw [Dio_WriteChannel_HIGH_eq hs hc hp, if_neg hn, if_pos hP]
  · rw [Dio_WriteChannel_LOW_eq hs hc hp, if_neg hn, if_pos hP]

/-- Witness for C1: channel 0 (pin 2) of the example state. -/
theorem Dio_WriteChannel_bank0_witness :
    (Dio_Example.Dio_Status = DIO_INITIALIZED ∧ 0 < DIO_CONFIGURED_CHANNLES ∧
      Pin_Num Dio_Example 0 = some 2 ∧ 2 < REG_SIZE ∧ RegsAreWords Dio_Example) ∧
    ((∃ out, Dio_WriteChannel Dio_Example 0 STD_HIGH =
          some { Dio_Example with GPIO_OUT_REG := out } ∧
        ∀ j, out.testBit j = (decide (j = 2) || Dio_Example.GPIO_OUT_REG.testBit j)) ∧
     (∃ out, Dio_WriteChannel Dio_Example 0 STD_LOW =
          some { Dio_Example with GPIO_OUT_REG := out } ∧
        ∀ j, out.testBit j = (!decide (j = 2) && Dio_Example.GPIO_OUT_REG.testBit j))) :=
  ⟨by decide,
    Dio_WriteChannel_bank0 Dio_Example 0 2 (by decide) (by decide) (by decide) (by decide)
      (by decide)⟩

/-- Witness for C2: channel 1 (pin 39) of the example state. -/
theorem Dio_WriteChannel_bank1_witness :
    (Dio_Example.Dio_Status = DIO_INITIALIZED ∧ 1 < DIO_CONFIGURED_CHANNLES ∧
      Pin_Num Dio_Example 1 = some 39 ∧ REG_SIZE ≤ 39 ∧ 39 < DIO_PINS_MAX_NUM ∧
      RegsAreWords Dio_Example) ∧
    ((∃ out1, Dio_WriteChannel Dio_Example 1 STD_HIGH =
          some { Dio_Example with GPIO_OUT1_REG := out1 } ∧
        ∀ j, out1.testBit j =
          (decide (j = 39 - REG_SIZE) || Dio_Example.GPIO_OUT1_REG.testBit j)) ∧
     (∃ out1, Dio_WriteChannel Dio_Example 1 STD_LOW =
          some { Dio_Example with GPIO_OUT1_REG := out1 } ∧
        ∀ j, out1.testBit j =
          (!decide (j = 39 - REG_SIZE) && Dio_Example.GPIO_OUT1_REG.testBit j))) :=
  ⟨by decide,
    Dio_WriteChannel_bank1 Dio_Example 1 39 (by decide) (by decide) (by decide) (by decide)
      (by decide) (by decide)⟩

/-! ## Reading a channel -/

/-- C3: in an initialised state, for a configured channel `c` whose pin `p` is below
`DIO_PINS_MAX_NUM`, `Dio_ReadChannel(c)` returns HIGH if the resolved bit (bit `p` of
`GPIO_IN_REG` when `p < REG_SIZE`, bit `p - REG_SIZE` of `GPIO_IN1_REG` otherwise) is set and LOW
if it is clear, leaving the state as it is; the returned level is the same whatever the two
output registers hold. -/
theorem Dio_ReadChannel_level (s : DioState) (c p : Nat)
    (hs : s.Dio_Status = DIO_INITIALIZED) (hc : c < DIO_CONFIGURED_CHANNLES)
    (hp : Pin_Num s c = some p) (hP : p < DIO_PINS_MAX_NUM) :
    Dio_ReadChannel s c =
        some (s, if (if p < REG_SIZE then s.GPIO_IN_REG.testBit p
                      else s.GPIO_IN1_REG.testBit (p - REG_SIZE)) = true
                 then STD_HIGH else STD_LOW) ∧
    ∀ out out1 : Nat,
      (Dio_ReadChannel { s with GPIO_OUT_REG := out, GPIO_OUT1_REG := out1 } c).map Prod.snd =
        (Dio_ReadChannel s c).map Prod.snd := by
  constructor
  · rw [Dio_ReadChannel_eq hs hc hp]
    by_cases hW : p < REG_SIZE
    · have hW32 : p < 32 := hW
      simp only [if_pos hW, READ_BIT_of_lt hW32]
    · have hb : p - REG_SIZE < 32 := by
        unfold REG_SIZE DIO_PINS_MAX_NUM at *; omega
      simp only [if_neg hW, if_pos hP, READ_BIT_of_lt hb]
  · intro out out1
    have hs2 : ({ s with GPIO_OUT_REG := out, GPIO_OUT1_REG := out1 } : DioState).Dio_Status =
        DIO_INITIALIZED := hs
    have hp2 : Pin_Num { s with GPIO_OUT_REG := out, GPIO_OUT1_REG := out1 } c = some p := hp
    rw [Dio_ReadChannel_eq hs hc hp, Dio_ReadChannel_eq hs2 hc hp2]
    by_cases hW : p < REG_SIZE
    · simp [hW]
    · simp [hW, hP]

/-- Witness for C3: channel 1 (pin 39) of the example state, whose bit 7 of `GPIO_IN1_REG` is
set. -/
theorem Dio_ReadChannel_level_witness :
    (Dio_Example.Dio_Status = DIO_INITIALIZED ∧ 1 < DIO_CONFIGURED_CHANNLES ∧
      Pin_Num Dio_Example 1 = some 39 ∧ 39 < DIO_PINS_MAX_NUM) ∧
    (Dio_ReadChannel Dio_Example 1 =
        some (Dio_Example, if (if 39 < REG_SIZE then Dio_Example.GPIO_IN_REG.testBit 39
                      else Dio_Example.GPIO_IN1_REG.testBit (39 - REG_SIZE)) = true
                 then STD_HIGH else STD_LOW) ∧
     ∀ out out1 : Nat,
      (Dio_ReadChannel { Dio_Example with GPIO_OUT_REG := out, GPIO_OUT1_REG := out1 } 1).map
          Prod.snd = (Dio_ReadChannel Dio_Example 1).map Prod.snd) :=
  ⟨by decide,
    Dio_ReadChannel_level Dio_Example 1 39 (by decide) (by decide) (by decide) (by decide)⟩

/-! ## Flipping a channel -/

theorem Dio_FlipChannel_eq {s : DioState} {c p : Nat}
    (hs : s.Dio_Status = DIO_INITIALIZED) (hc : c < DIO_CONFIGURED_CHANNLES)
    (hp : Pin_Num s c = some p) :
    Dio_FlipChannel s c =
      if BIT_IS_CLEAR s.GPIO_OUT_REG p = true then
        if p < REG_SIZE then
          some ({ s with GPIO_OUT_REG := SET_BIT s.GPIO_OUT_REG p }, STD_HIGH)
        else if p < DIO_PINS_MAX_NUM then
          some ({ s with GPIO_OUT1_REG := SET_BIT s.GPIO_OUT1_REG (p - REG_SIZE) }, STD_HIGH)
        else some (s, STD_LOW)
      else if BIT_IS_SET s.GPIO_OUT_REG p = true then
        if p < REG_SIZE then
          some ({ s with GPIO_OUT_REG := CLEAR_BIT s.GPIO_OUT_REG p }, STD_LOW)
        else if p < DIO_PINS_MAX_NUM then
          some ({ s with GPIO_OUT1_REG := CLEAR_BIT s.GPIO_OUT1_REG (p - REG_SIZE) }, STD_LOW)
        else some (s, STD_LOW)
      else some (s, STD_LOW) := by
  unfold Dio_FlipChannel
  simp [Dio_DetChecks_pass DIO_WRITE_CHANNEL_SID hs hc, hp]

/-- C4, the code at the failing input: channel 1 sits on pin 39, bit 7 of `GPIO_OUT1_REG` is set
and `GPIO_OUT_REG` is zero.  `Dio_FlipChannel(1)` tests `GPIO_OUT_REG`, finds the bit clear, sets
the bit of `GPIO_OUT1_REG` that is already set and returns HIGH, so the state is unchanged; the
reference program reads bit 7 of `GPIO_OUT1_REG`, clears it and returns LOW. -/
theorem Dio_FlipChannel_bank1_diverges :
    Dio_FlipChannel Dio_FlipFailing 1 = some (Dio_FlipFailing, STD_HIGH) ∧
    Flip_Reference Dio_FlipFailing 1 =
      some ({ Dio_FlipFailing with GPIO_OUT1_REG := 0 }, STD_LOW) ∧
    Dio_FlipChannel Dio_FlipFailing 1 ≠ Flip_Reference Dio_FlipFailing 1 := by
  decide

/-- On bank 0 the flip service and its reference program agree: for a configured channel whose
pin is below the bank width, `Dio_FlipChannel` yields the state and the level of
`Flip_Reference`. -/
theorem Dio_FlipChannel_bank0_refines (s : DioState) (c p : Nat)
    (hs : s.Dio_Status = DIO_INITIALIZED) (hc : c < DIO_CONFIGURED_CHANNLES)
    (hp : Pin_Num s c = some p) (hW : p < REG_SIZE) :
    Dio_FlipChannel s c = Flip_Reference s c := by
  have hW32 : p < 32 := hW
  unfold Flip_Reference ReadOutputBit
  rw [Dio_FlipChannel_eq hs hc hp, Dio_WriteChannel_HIGH_eq hs hc hp,
    Dio_WriteChannel_LOW_eq hs hc hp, hp, BIT_IS_CLEAR_of_lt hW32, BIT_IS_SET_of_lt hW32]
  simp only [Option.some_bind, if_pos hW, READ_BIT_of_lt hW32]
  cases s.GPIO_OUT_REG.testBit p <;> simp [STD_HIGH, STD_LOW]

/-! ## Guard failures -/

theorem Dio_DetChecks_eq (s : DioState) (ApiId : Dio_ServiceId) (c : Nat) :
    Dio_DetChecks s ApiId c =
      ({ s with Det_Errors := s.Det_Errors ++
            ((if DIO_NOT_INITIALIZED = s.Dio_Status then
                [⟨DIO_MODULE_ID, DIO_INSTANCE_ID, ApiId, DIO_E_UNINIT⟩] else []) ++
             (if DIO_CONFIGURED_CHANNLES ≤ c then
                [⟨DIO_MODULE_ID, DIO_INSTANCE_ID, ApiId, DIO_E_PARAM_INVALID_CHANNEL_ID⟩]
              else [])) },
        decide (DIO_NOT_INITIALIZED = s.Dio_Status ∨ DIO_CONFIGURED_CHANNLES ≤ c)) := by
  unfold Dio_DetChecks Det_ReportError
  by_cases h1 : DIO_NOT_INITIALIZED = s.Dio_Status <;>
    by_cases h2 : DIO_CONFIGURED_CHANNLES ≤ c <;> simp [h1, h2]

/-- C5: while the status is NOT_INITIALIZED, for every channel id and level, each of
`Dio_WriteChannel`, `Dio_ReadChannel` and `Dio_FlipChannel` reports `DIO_E_UNINIT` (followed by
`DIO_E_PARAM_INVALID_CHANNEL_ID` when the channel id is out of range, and by nothing otherwise),
changes nothing but the list of reports, so that the four registers keep their contents, and the
read and flip services return LOW. -/
theorem Dio_services_uninit (s : DioState) (c Level : Nat)
    (hs : s.Dio_Status = DIO_NOT_INITIALIZED) :
    Dio_WriteChannel s c Level =
      some { s with Det_Errors := s.Det_Errors ++
        ⟨DIO_MODULE_ID, DIO_INSTANCE_ID, DIO_WRITE_CHANNEL_SID, DIO_E_UNINIT⟩ ::
          (if DIO_CONFIGURED_CHANNLES ≤ c then
            [⟨DIO_MODULE_ID, DIO_INSTANCE_ID, DIO_WRITE_CHANNEL_SID,
              DIO_E_PARAM_INVALID_CHANNEL_ID⟩] else []) } ∧
    Dio_ReadChannel s c =
      some ({ s with Det_Errors := s.Det_Errors ++
        ⟨DIO_MODULE_ID, DIO_INSTANCE_ID, DIO_READ_CHANNEL_SID, DIO_E_UNINIT⟩ ::
          (if DIO_CONFIGURED_CHANNLES ≤ c then
            [⟨DIO_MODULE_ID, DIO_INSTANCE_ID, DIO_READ_CHANNEL_SID,
              DIO_E_PARAM_INVALID_CHANNEL_ID⟩] else []) }, STD_LOW) ∧
    Dio_FlipChannel s c =
      some ({ s with Det_Errors := s.Det_Errors ++
        ⟨DIO_MODULE_ID, DIO_INSTANCE_ID, DIO_WRITE_CHANNEL_SID, DIO_E_UNINIT⟩ ::
          (if DIO_CONFIGURED_CHANNLES ≤ c then
            [⟨DIO_MODULE_ID, DIO_INSTANCE_ID, DIO_WRITE_CHANNEL_SID,
              DIO_E_PARAM_INVALID_CHANNEL_ID⟩] else []) }, STD_LOW) := by
  have h1 : DIO_NOT_INITIALIZED = s.Dio_Status := hs.symm
  refine ⟨?_, ?_, ?_⟩
  · unfold Dio_WriteChannel
    simp [Dio_DetChecks_eq, h1]
  · unfold Dio_ReadChannel
    simp [Dio_DetChecks_eq, h1]
  · unfold Dio_FlipChannel
    simp [Dio_DetChecks_eq, h1]

/-- Witness for C5: the start-up state, channel 0, level HIGH. -/
theorem Dio_services_uninit_witness :
    (Dio_Startup 5 128 4 128).Dio_Status = DIO_NOT_INITIALIZED ∧
    (Dio_WriteChannel (Dio_Startup 5 128 4 128) 0 STD_HIGH =
      some { Dio_Startup 5 128 4 128 with Det_Errors := (Dio_Startup 5 128 4 128).Det_Errors ++
        ⟨DIO_MODULE_ID, DIO_INSTANCE_ID, DIO_WRITE_CHANNEL_SID, DIO_E_UNINIT⟩ ::
          (if DIO_CONFIGURED_CHANNLES ≤ 0 then
            [⟨DIO_MODULE_ID, DIO_INSTANCE_ID, DIO_WRITE_CHANNEL_SID,
              DIO_E_PARAM_INVALID_CHANNEL_ID⟩] else []) } ∧
    Dio_ReadChannel (Dio_Startup 5 128 4 128) 0 =
      some ({ Dio_Startup 5 128 4 128 with Det_Errors :=
        (Dio_Startup 5 128 4 128).Det_Errors ++
        ⟨DIO_MODULE_ID, DIO_INSTANCE_ID, DIO_READ_CHANNEL_SID, DIO_E_UNINIT⟩ ::
          (if DIO_CONFIGURED_CHANNLES ≤ 0 then
            [⟨DIO_MODULE_ID, DIO_INSTANCE_ID, DIO_READ_CHANNEL_SID,
              DIO_E_PARAM_INVALID_CHANNEL_ID⟩] else []) }, STD_LOW) ∧
    Dio_FlipChannel (Dio_Startup 5 128 4 128) 0 =
      some ({ Dio_Startup 5 128 4 128 with Det_Errors :=
        (Dio_Startup 5 128 4 128).Det_Errors ++
        ⟨DIO_MODULE_ID, DIO_INSTANCE_ID, DIO_WRITE_CHANNEL_SID, DIO_E_UNINIT⟩ ::
          (if DIO_CONFIGURED_CHANNLES ≤ 0 then
            [⟨DIO_MODULE_ID, DIO_INSTANCE_ID, DIO_WRITE_CHANNEL_SID,
              DIO_E_PARAM_INVALID_CHANNEL_ID⟩] else []) }, STD_LOW)) :=
  ⟨by decide, Dio_services_uninit (Dio_Startup 5 128 4 128) 0 STD_HIGH (by decide)⟩

/-- C6: whatever the status, for every channel id that is not below `DIO_CONFIGURED_CHANNLES` and
every level, each of `Dio_WriteChannel`, `Dio_ReadChannel` and `Dio_FlipChannel` reports
`DIO_E_PARAM_INVALID_CHANNEL_ID` (after `DIO_E_UNINIT` when the status is NOT_INITIALIZED),
changes nothing but the list of reports, so that the four registers keep their contents, and the
read and flip services return LOW. -/
theorem Dio_services_invalid_channel (s : DioState) (c Level : Nat)
    (hc : DIO_CONFIGURED_CHANNLES ≤ c) :
    Dio_WriteChannel s c Level =
      some { s with Det_Errors := s.Det_Errors ++
        ((if DIO_NOT_INITIALIZED = s.Dio_Status then
            [⟨DIO_MODULE_ID, DIO_INSTANCE_ID, DIO_WRITE_CHANNEL_SID, DIO_E_UNINIT⟩] else []) ++
          [⟨DIO_MODULE_ID, DIO_INSTANCE_ID, DIO_WRITE_CHANNEL_SID,
            DIO_E_PARAM_INVALID_CHANNEL_ID⟩]) } ∧
    Dio_ReadChannel s c =
      some ({ s with Det_Errors := s.Det_Errors ++
        ((if DIO_NOT_INITIALIZED = s.Dio_Status then
            [⟨DIO_MODULE_ID, DIO_INSTANCE_ID, DIO_READ_CHANNEL_SID, DIO_E_UNINIT⟩] else []) ++
          [⟨DIO_MODULE_ID, DIO_INSTANCE_ID, DIO_READ_CHANNEL_SID,
            DIO_E_PARAM_INVALID_CHANNEL_ID⟩]) }, STD_LOW) ∧
    Dio_FlipChannel s c =
      some ({ s with Det_Errors := s.Det_Errors ++
        ((if DIO_NOT_INITIALIZED = s.Dio_Status then
            [⟨DIO_MODULE_ID, DIO_INSTANCE_ID, DIO_WRITE_CHANNEL_SID, DIO_E_UNINIT⟩] else []) ++
          [⟨DIO_MODULE_ID, DIO_INSTANCE_ID, DIO_WRITE_CHANNEL_SID,
            DIO_E_PARAM_INVALID_CHANNEL_ID⟩]) }, STD_LOW) := by
  refine ⟨?_, ?_, ?_⟩
  · unfold Dio_WriteChannel
    simp [Dio_DetChecks_eq, hc]
  · unfold Dio_ReadChannel
    simp [Dio_DetChecks_eq, hc]
  · unfold Dio_FlipChannel
    simp [Dio_DetChecks_eq, hc]

/-- Witness for C6: channel id 2 in the example state, level HIGH. -/
theorem Dio_services_invalid_channel_witness :
    DIO_CONFIGURED_CHANNLES ≤ 2 ∧
    (Dio_WriteChannel Dio_Example 2 STD_HIGH =
      some { Dio_Example with Det_Errors := Dio_Example.Det_Errors ++
        ((if DIO_NOT_INITIALIZED = Dio_Example.Dio_Status then
            [⟨DIO_MODULE_ID, DIO_INSTANCE_ID, DIO_WRITE_CHANNEL_SID, DIO_E_UNINIT⟩] else []) ++
          [⟨DIO_MODULE_ID, DIO_INSTANCE_ID, DIO_WRITE_CHANNEL_SID,
            DIO_E_PARAM_INVALID_CHANNEL_ID⟩]) } ∧
    Dio_ReadChannel Dio_Example 2 =
      some ({ Dio_Example with Det_Errors := Dio_Example.Det_Errors ++
        ((if DIO_NOT_INITIALIZED = Dio_Example.Dio_Status then
            [⟨DIO_MODULE_ID, DIO_INSTANCE_ID, DIO_READ_CHANNEL_SID, DIO_E_UNINIT⟩] else []) ++
          [⟨DIO_MODULE_ID, DIO_INSTANCE_ID, DIO_READ_CHANNEL_SID,
            DIO_E_PARAM_INVALID_CHANNEL_ID⟩]) }, STD_LOW) ∧
    Dio_FlipChannel Dio_Example 2 =
      some ({ Dio_Example with Det_Errors := Dio_Example.Det_Errors ++
        ((if DIO_NOT_INITIALIZED = Dio_Example.Dio_Status then
            [⟨DIO_MODULE_ID, DIO_INSTANCE_ID, DIO_WRITE_CHANNEL_SID, DIO_E_UNINIT⟩] else []) ++
          [⟨DIO_MODULE_ID, DIO_INSTANCE_ID, DIO_WRITE_CHANNEL_SID,
            DIO_E_PARAM_INVALID_CHANNEL_ID⟩]) }, STD_LOW)) :=
  ⟨by decide, Dio_services_invalid_channel Dio_Example 2 STD_HIGH (by decide)⟩

/-! ## Initialisation -/

/-- C7: `Dio_Init(NULL_PTR)` reports `DIO_E_PARAM_CONFIG` under `DIO_INIT_SID` and changes nothing
else: the status, the stored channel table and the four registers are as before; from the
start-up state the status is still NOT_INITIALIZED afterwards. -/
theorem Dio_Init_null (s : DioState) :
    Dio_Init s none =
      { s with Det_Errors := s.Det_Errors ++
          [⟨DIO_MODULE_ID, DIO_INSTANCE_ID, DIO_INIT_SID, DIO_E_PARAM_CONFIG⟩] } ∧
    (Dio_Init s none).Dio_Status = s.Dio_Status ∧
    (Dio_Init s none).Dio_PortChannels = s.Dio_PortChannels ∧
    (Dio_Init s none).GPIO_OUT_REG = s.GPIO_OUT_REG ∧
    (Dio_Init s none).GPIO_OUT1_REG = s.GPIO_OUT1_REG ∧
    (Dio_Init s none).GPIO_IN_REG = s.GPIO_IN_REG ∧
    (Dio_Init s none).GPIO_IN1_REG = s.GPIO_IN1_REG ∧
    ∀ out out1 inp inp1 : Nat,
      (Dio_Init (Dio_Startup out out1 inp inp1) none).Dio_Status = DIO_NOT_INITIALIZED :=
  ⟨rfl, rfl, rfl, rfl, rfl, rfl, rfl, fun _ _ _ _ => rfl⟩

/-- C8: for a configuration `cfg` that is not null, `Dio_Init(cfg)` makes no report, sets the
status to INITIALIZED, stores the channel table of `cfg` and leaves the registers alone; a second
initialisation overwrites the first, so `Dio_Init(cfg1)` followed by `Dio_Init(cfg2)` gives the
state of `Dio_Init(cfg2)` alone. -/
theorem Dio_Init_config (s : DioState) (cfg cfg1 cfg2 : Dio_ConfigType) :
    (Dio_Init s (some cfg)).Det_Errors = s.Det_Errors ∧
    (Dio_Init s (some cfg)).Dio_Status = DIO_INITIALIZED ∧
    (Dio_Init s (some cfg)).Dio_PortChannels = some cfg.Channels ∧
    (Dio_Init s (some cfg)).GPIO_OUT_REG = s.GPIO_OUT_REG ∧
    (Dio_Init s (some cfg)).GPIO_OUT1_REG = s.GPIO_OUT1_REG ∧
    (Dio_Init s (some cfg)).GPIO_IN_REG = s.GPIO_IN_REG ∧
    (Dio_Init s (some cfg)).GPIO_IN1_REG = s.GPIO_IN1_REG ∧
    Dio_Init (Dio_Init s (some cfg1)) (some cfg2) = Dio_Init s (some cfg2) :=
  ⟨rfl, rfl, rfl, rfl, rfl, rfl, rfl, rfl⟩

/-! ## Writing twice -/

/-- C10: in an initialised state, for a configured channel `c` whose pin `p` is below
`DIO_PINS_MAX_NUM` and a level that is HIGH or LOW, `Dio_WriteChannel(c, Level)` performed on its
own result gives that result again, so writing twice yields the state of writing once; neither
call makes a report; and after writing HIGH the resolved bit (bit `p` of `GPIO_OUT_REG` when
`p < REG_SIZE`, bit `p - REG_SIZE` of `GPIO_OUT1_REG` otherwise) is set. -/
theorem Dio_WriteChannel_twice (s : DioState) (c p Level : Nat)
    (hs : s.Dio_Status = DIO_INITIALIZED) (hc : c < DIO_CONFIGURED_CHANNLES)
    (hp : Pin_Num s c = some p) (hP : p < DIO_PINS_MAX_NUM)
    (hL : Level = STD_HIGH ∨ Level = STD_LOW) :
    ∃ t, Dio_WriteChannel s c Level = some t ∧ Dio_WriteChannel t c Level = some t ∧
      t.Det_Errors = s.Det_Errors ∧
      (Level = STD_HIGH →
        (if p < REG_SIZE then t.GPIO_OUT_REG.testBit p
          else t.GPIO_OUT1_REG.testBit (p - REG_SIZE)) = true) := by
  have hne : ¬ STD_LOW = STD_HIGH := by decide
  by_cases hW : p < REG_SIZE
  · have hW32 : p < 32 := hW
    rcases hL with rfl | rfl
    · refine ⟨{ s with GPIO_OUT_REG := SET_BIT s.GPIO_OUT_REG p }, ?_, ?_, rfl, fun _ => ?_⟩
      · rw [Dio_WriteChannel_HIGH_eq hs hc hp, if_pos hW]
      · have hs2 : ({ s with GPIO_OUT_REG := SET_BIT s.GPIO_OUT_REG p } :
            DioState).Dio_Status = DIO_INITIALIZED := hs
        have hp2 : Pin_Num { s with GPIO_OUT_REG := SET_BIT s.GPIO_OUT_REG p } c = some p := hp
        rw [Dio_WriteChannel_HIGH_eq hs2 hc hp2, if_pos hW]
        simp only [SET_BIT_idem]
      · simp [hW, testBit_SET_BIT hW32]
    · refine ⟨{ s with GPIO_OUT_REG := CLEAR_BIT s.GPIO_OUT_REG p }, ?_, ?_, rfl,
        fun h => absurd h hne⟩
      · rw [Dio_WriteChannel_LOW_eq hs hc hp, if_pos hW]
      · have hs2 : ({ s with GPIO_OUT_REG := CLEAR_BIT s.GPIO_OUT_REG p } :
            DioState).Dio_Status = DIO_INITIALIZED := hs
        have hp2 : Pin_Num { s with GPIO_OUT_REG := CLEAR_BIT s.GPIO_OUT_REG p } c = some p := hp
        rw [Dio_WriteChannel_LOW_eq hs2 hc hp2, if_pos hW]
        simp only [CLEAR_BIT_idem]
  · have hb : p - REG_SIZE < 32 := by
      unfold REG_SIZE DIO_PINS_MAX_NUM at *; omega
    rcases hL with rfl | rfl
    · refine ⟨{ s with GPIO_OUT1_REG := SET_BIT s.GPIO_OUT1_REG (p - REG_SIZE) }, ?_, ?_, rfl,
        fun _ => ?_⟩
      · rw [Dio_WriteChannel_HIGH_eq hs hc hp, if_neg hW, if_pos hP]
      · have hs2 : ({ s with GPIO_OUT1_REG := SET_BIT s.GPIO_OUT1_REG (p - REG_SIZE) } :
            DioState).Dio_Status = DIO_INITIALIZED := hs
        have hp2 : Pin_Num { s with GPIO_OUT1_REG := SET_BIT s.GPIO_OUT1_REG (p - REG_SIZE) } c =
            some p := hp
        rw [Dio_WriteChannel_HIGH_eq hs2 hc hp2, if_neg hW, if_pos hP]
        simp only [SET_BIT_idem]
      · simp [hW, testBit_SET_BIT hb]
    · refine ⟨{ s with GPIO_OUT1_REG := CLEAR_BIT s.GPIO_OUT1_REG (p - REG_SIZE) }, ?_, ?_, rfl,
        fun h => absurd h hne⟩
      · rw [Dio_WriteChannel_LOW_eq hs hc hp, if_neg hW, if_pos hP]
      · have hs2 : ({ s with GPIO_OUT1_REG := CLEAR_BIT s.GPIO_OUT1_REG (p - REG_SIZE) } :
            DioState).Dio_Status = DIO_INITIALIZED := hs
        have hp2 : Pin_Num { s with GPIO_OUT1_REG := CLEAR_BIT s.GPIO_OUT1_REG (p - REG_SIZE) }
            c = some p := hp
        rw [Dio_WriteChannel_LOW_eq hs2 hc hp2, if_neg hW, if_pos hP]
        simp only [CLEAR_BIT_idem]

/-- Witness for C10: channel 1 (pin 39) of the example state, level HIGH. -/
theorem Dio_WriteChannel_twice_witness :
    (Dio_Example.Dio_Status = DIO_INITIALIZED ∧ 1 < DIO_CONFIGURED_CHANNLES ∧
      Pin_Num Dio_Example 1 = some 39 ∧ 39 < DIO_PINS_MAX_NUM ∧
      (STD_HIGH = STD_HIGH ∨ STD_HIGH = STD_LOW)) ∧
    ∃ t, Dio_WriteChannel Dio_Example 1 STD_HIGH = some t ∧
      Dio_WriteChannel t 1 STD_HIGH = some t ∧ t.Det_Errors = Dio_Example.Det_Errors ∧
      (STD_HIGH = STD_HIGH →
        (if 39 < REG_SIZE then t.GPIO_OUT_REG.testBit 39
          else t.GPIO_OUT1_REG.testBit (39 - REG_SIZE)) = true) :=
  ⟨by decide,
    Dio_WriteChannel_twice Dio_Example 1 39 STD_HIGH (by decide) (by decide) (by decide)
      (by decide) (by decide)⟩

/-! ## The scenario of the specification -/

theorem Dio_Configuration_write0 {s : DioState} (hs : s.Dio_Status = DIO_INITIALIZED)
    (ht : s.Dio_PortChannels = some Dio_Configuration.Channels) :
    Dio_WriteChannel s 0 STD_HIGH = some { s with GPIO_OUT_REG := SET_BIT s.GPIO_OUT_REG 2 } := by
  have hp : Pin_Num s 0 = some 2 := by
    unfold Pin_Num; rw [ht]; rfl
  rw [Dio_WriteChannel_HIGH_eq hs (by decide) hp, if_pos (by decide)]

theorem Dio_Configuration_write1 {s : DioState} (hs : s.Dio_Status = DIO_INITIALIZED)
    (ht : s.Dio_PortChannels = some Dio_Configuration.Channels) :
    Dio_WriteChannel s 1 STD_LOW =
      some { s with GPIO_OUT1_REG := CLEAR_BIT s.GPIO_OUT1_REG 7 } := by
  have hp : Pin_Num s 1 = some 39 := by
    unfold Pin_Num; rw [ht]; rfl
  rw [Dio_WriteChannel_LOW_eq hs (by decide) hp, if_neg (by decide), if_pos (by decide)]
  rfl

theorem Dio_Configuration_flip0 {s : DioState} (hs : s.Dio_Status = DIO_INITIALIZED)
    (ht : s.Dio_PortChannels = some Dio_Configuration.Channels)
    (hb : s.GPIO_OUT_REG.testBit 2 = true) :
    Dio_FlipChannel s 0 =
      some ({ s with GPIO_OUT_REG := CLEAR_BIT s.GPIO_OUT_REG 2 }, STD_LOW) := by
  have hp : Pin_Num s 0 = some 2 := by
    unfold Pin_Num; rw [ht]; rfl
  have h2 : (2 : Nat) < 32 := by decide
  rw [Dio_FlipChannel_eq hs (by decide) hp, BIT_IS_CLEAR_of_lt h2, BIT_IS_SET_of_lt h2, hb]
  simp [REG_SIZE]

/-- C9: with the table channel 0 on pin 2 and channel 1 on pin 39, for every contents of the
registers (32-bit words), after `Dio_Init` on that table: `Dio_WriteChannel(0, HIGH)` changes at
most bit 2 of `GPIO_OUT_REG` and leaves it set; `Dio_WriteChannel(1, LOW)` changes at most bit 7
of `GPIO_OUT1_REG` and leaves it clear; `Dio_FlipChannel(0)`, called when bit 2 of `GPIO_OUT_REG`
is set, clears that bit, changes nothing else and returns LOW.  The three calls made one after
the other end with bit 2 of `GPIO_OUT_REG` and bit 7 of `GPIO_OUT1_REG` clear, the flip
returning LOW, every other bit of the four registers being as at the start. -/
theorem Dio_scenario (s : DioState) (hr : RegsAreWords s) :
    (∃ out, Dio_WriteChannel (Dio_Init s (some Dio_Configuration)) 0 STD_HIGH =
          some { Dio_Init s (some Dio_Configuration) with GPIO_OUT_REG := out } ∧
        out.testBit 2 = true ∧ ∀ j, j ≠ 2 → out.testBit j = s.GPIO_OUT_REG.testBit j) ∧
    (∃ out1, Dio_WriteChannel (Dio_Init s (some Dio_Configuration)) 1 STD_LOW =
          some { Dio_Init s (some Dio_Configuration) with GPIO_OUT1_REG := out1 } ∧
        out1.testBit 7 = false ∧ ∀ j, j ≠ 7 → out1.testBit j = s.GPIO_OUT1_REG.testBit j) ∧
    (s.GPIO_OUT_REG.testBit 2 = true →
      ∃ out, Dio_FlipChannel (Dio_Init s (some Dio_Configuration)) 0 =
          some ({ Dio_Init s (some Dio_Configuration) with GPIO_OUT_REG := out }, STD_LOW) ∧
        out.testBit 2 = false ∧ ∀ j, j ≠ 2 → out.testBit j = s.GPIO_OUT_REG.testBit j) ∧
    (∃ s1 s2 out out1,
        Dio_WriteChannel (Dio_Init s (some Dio_Configuration)) 0 STD_HIGH = some s1 ∧
        Dio_WriteChannel s1 1 STD_LOW = some s2 ∧
        Dio_FlipChannel s2 0 =
          some ({ Dio_Init s (some Dio_Configuration) with
                    GPIO_OUT_REG := out, GPIO_OUT1_REG := out1 }, STD_LOW) ∧
        out.testBit 2 = false ∧ (∀ j, j ≠ 2 → out.testBit j = s.GPIO_OUT_REG.testBit j) ∧
        out1.testBit 7 = false ∧ (∀ j, j ≠ 7 → out1.testBit j = s.GPIO_OUT1_REG.testBit j)) := by
  have h2 : (2 : Nat) < 32 := by decide
  have h7 : (7 : Nat) < 32 := by decide
  have hset : ∀ reg : Nat, (SET_BIT reg 2).testBit 2 = true ∧
      ∀ j, j ≠ 2 → (SET_BIT reg 2).testBit j = reg.testBit j := fun reg =>
    ⟨by simp [testBit_SET_BIT h2], fun j hj => by simp [testBit_SET_BIT h2, hj]⟩
  have hclr : ∀ reg b : Nat, b < 32 → reg < 2 ^ 32 → (CLEAR_BIT reg b).testBit b = false ∧
      ∀ j, j ≠ b → (CLEAR_BIT reg b).testBit j = reg.testBit j := fun reg b hb hreg =>
    ⟨by simp [testBit_CLEAR_BIT hb hreg], fun j hj => by simp [testBit_CLEAR_BIT hb hreg, hj]⟩
  refine ⟨⟨_, Dio_Configuration_write0 rfl rfl, hset _⟩,
    ⟨_, Dio_Configuration_write1 rfl rfl, hclr _ 7 h7 hr.2.1⟩,
    fun hb => ⟨_, Dio_Configuration_flip0 rfl rfl hb, hclr _ 2 h2 hr.1⟩, ?_⟩
  refine ⟨_, _, CLEAR_BIT (SET_BIT s.GPIO_OUT_REG 2) 2, CLEAR_BIT s.GPIO_OUT1_REG 7,
    Dio_Configuration_write0 rfl rfl, Dio_Configuration_write1 rfl rfl,
    Dio_Configuration_flip0 rfl rfl (hset _).1, (hclr _ 2 h2 (SET_BIT_lt hr.1)).1, ?_,
    (hclr _ 7 h7 hr.2.1).1, (hclr _ 7 h7 hr.2.1).2⟩
  intro j hj
  rw [(hclr _ 2 h2 (SET_BIT_lt hr.1)).2 j hj, (hset _).2 j hj]

/-- Witness for C9: the start-up state with `GPIO_OUT_REG = 5` (bit 2 set), `GPIO_OUT1_REG = 128`
(bit 7 set), `GPIO_IN_REG = 4`, `GPIO_IN1_REG = 128`. -/
theorem Dio_scenario_witness :
    RegsAreWords (Dio_Startup 5 128 4 128) ∧
    (Dio_Startup 5 128 4 128).GPIO_OUT_REG.testBit 2 = true ∧
    Dio_WriteChannel (Dio_Init (Dio_Startup 5 128 4 128) (some Dio_Configuration)) 1 STD_LOW =
      some { Dio_Init (Dio_Startup 5 128 4 128) (some Dio_Configuration) with
              GPIO_OUT1_REG := 0 } ∧
    ∃ out, Dio_FlipChannel (Dio_Init (Dio_Startup 5 128 4 128) (some Dio_Configuration)) 0 =
        some ({ Dio_Init (Dio_Startup 5 128 4 128) (some Dio_Configuration) with
                  GPIO_OUT_REG := out }, STD_LOW) ∧
      out.testBit 2 = false ∧
      ∀ j, j ≠ 2 → out.testBit j = (Dio_Startup 5 128 4 128).GPIO_OUT_REG.testBit j :=
  ⟨by decide, by decide, by decide,
    (Dio_scenario (Dio_Startup 5 128 4 128) (by decide)).2.2.1 (by decide)⟩

/-! ## Writing then reading -/

theorem testBit_SET_BIT_self {reg bit : Nat} (h : bit < 32) :
    (SET_BIT reg bit).testBit bit = true := by
  simp [testBit_SET_BIT h]

theorem testBit_CLEAR_BIT_self {reg bit : Nat} (h : bit < 32) :
    (CLEAR_BIT reg bit).testBit bit = false := by
  unfold CLEAR_BIT
  rw [BIT_MASK_of_lt h, Nat.testBit_and, Nat.testBit_xor, Nat.testBit_two_pow_sub_one,
    Nat.testBit_two_pow]
  simp [h]

/-- C11: in an initialised state, for a configured channel `c` whose pin `p` is below
`DIO_PINS_MAX_NUM` and a level that is HIGH or LOW, `Dio_WriteChannel(c, Level)` yields a state
`t` such that, if each input register of `t` holds the value of the output register of the same
bank, `Dio_ReadChannel(c)` returns `Level`; in particular it does on the loop-back of `t`. -/
theorem Dio_write_read_loopback (s : DioState) (c p Level : Nat)
    (hs : s.Dio_Status = DIO_INITIALIZED) (hc : c < DIO_CONFIGURED_CHANNLES)
    (hp : Pin_Num s c = some p) (hP : p < DIO_PINS_MAX_NUM)
    (hL : Level = STD_HIGH ∨ Level = STD_LOW) :
    ∃ t, Dio_WriteChannel s c Level = some t ∧
      (t.GPIO_IN_REG = t.GPIO_OUT_REG → t.GPIO_IN1_REG = t.GPIO_OUT1_REG →
        Dio_ReadChannel t c = some (t, Level)) ∧
      Dio_ReadChannel (Dio_LoopBack t) c = some (Dio_LoopBack t, Level) := by
  -- the read of a state whose resolved input bit is known
  have key : ∀ t : DioState, t.Dio_Status = DIO_INITIALIZED → Pin_Num t c = some p →
      ∀ b : Bool, (if p < REG_SIZE then t.GPIO_IN_REG.testBit p
          else t.GPIO_IN1_REG.testBit (p - REG_SIZE)) = b →
      Dio_ReadChannel t c = some (t, if b = true then STD_HIGH else STD_LOW) := by
    intro t ht hpt b hb
    rw [Dio_ReadChannel_eq ht hc hpt]
    by_cases hW : p < REG_SIZE
    · have hW32 : p < 32 := hW
      rw [if_pos hW] at hb
      simp only [if_pos hW, READ_BIT_of_lt hW32, hb]
    · have hb32 : p - REG_SIZE < 32 := by
        unfold REG_SIZE DIO_PINS_MAX_NUM at *; omega
      rw [if_neg hW] at hb
      simp only [if_neg hW, if_pos hP, READ_BIT_of_lt hb32, hb]
  -- the written state, and the resolved output bit in it
  have hw : ∃ t, Dio_WriteChannel s c Level = some t ∧ t.Dio_Status = DIO_INITIALIZED ∧
      Pin_Num t c = some p ∧
      ∃ b : Bool, (if b = true then STD_HIGH else STD_LOW) = Level ∧
        (if p < REG_SIZE then t.GPIO_OUT_REG.testBit p
          else t.GPIO_OUT1_REG.testBit (p - REG_SIZE)) = b := by
    by_cases hW : p < REG_SIZE
    · have hW32 : p < 32 := hW
      rcases hL with rfl | rfl
      · exact ⟨{ s with GPIO_OUT_REG := SET_BIT s.GPIO_OUT_REG p },
          by rw [Dio_WriteChannel_HIGH_eq hs hc hp, if_pos hW], hs, hp, true, rfl,
          by simp only [if_pos hW]; exact testBit_SET_BIT_self hW32⟩
      · exact ⟨{ s with GPIO_OUT_REG := CLEAR_BIT s.GPIO_OUT_REG p },
          by rw [Dio_WriteChannel_LOW_eq hs hc hp, if_pos hW], hs, hp, false, rfl,
          by simp only [if_pos hW]; exact testBit_CLEAR_BIT_self hW32⟩
    · have hb32 : p - REG_SIZE < 32 := by
        unfold REG_SIZE DIO_PINS_MAX_NUM at *; omega
      rcases hL with rfl | rfl
      · exact ⟨{ s with GPIO_OUT1_REG := SET_BIT s.GPIO_OUT1_REG (p - REG_SIZE) },
          by rw [Dio_WriteChannel_HIGH_eq hs hc hp, if_neg hW, if_pos hP], hs, hp, true, rfl,
          by simp only [if_neg hW]; exact testBit_SET_BIT_self hb32⟩
      · exact ⟨{ s with GPIO_OUT1_REG := CLEAR_BIT s.GPIO_OUT1_REG (p - REG_SIZE) },
          by rw [Dio_WriteChannel_LOW_eq hs hc hp, if_neg hW, if_pos hP], hs, hp, false, rfl,
          by simp only [if_neg hW]; exact testBit_CLEAR_BIT_self hb32⟩
  obtain ⟨t, hwt, hst, hpt, b, hbL, hbit⟩ := hw
  refine ⟨t, hwt, fun h0 h1 => ?_, ?_⟩
  · rw [← hbL]
    exact key t hst hpt b (by rw [h0, h1]; exact hbit)
  · rw [← hbL]
    exact key (Dio_LoopBack t) hst hpt b hbit

/-- Witness for C11: channel 1 (pin 39) of the example state, level LOW. -/
theorem Dio_write_read_loopback_witness :
    (Dio_Example.Dio_Status = DIO_INITIALIZED ∧ 1 < DIO_CONFIGURED_CHANNLES ∧
      Pin_Num Dio_Example 1 = some 39 ∧ 39 < DIO_PINS_MAX_NUM ∧
      (STD_LOW = STD_HIGH ∨ STD_LOW = STD_LOW)) ∧
    ∃ t, Dio_WriteChannel Dio_Example 1 STD_LOW = some t ∧
      (t.GPIO_IN_REG = t.GPIO_OUT_REG → t.GPIO_IN1_REG = t.GPIO_OUT1_REG →
        Dio_ReadChannel t 1 = some (t, STD_LOW)) ∧
      Dio_ReadChannel (Dio_LoopBack t) 1 = some (Dio_LoopBack t, STD_LOW) :=
  ⟨by decide,
    Dio_write_read_loopback Dio_Example 1 39 STD_LOW (by decide) (by decide) (by decide)
      (by decide) (by decide)⟩

/-! ## Pins outside the hardware range, levels outside HIGH and LOW -/

/-- C12: in an initialised state, for a configured channel `c` whose table entry has a pin number
`p` that is not below `DIO_PINS_MAX_NUM`, `Dio_WriteChannel` (any level), `Dio_ReadChannel` and
`Dio_FlipChannel` return the state they were given, so the four registers and the list of
reports are unchanged, and the read and flip services return LOW; this holds whatever the four
registers hold, so the result does not depend on them. -/
theorem Dio_pin_out_of_range (s : DioState) (c p Level : Nat)
    (hs : s.Dio_Status = DIO_INITIALIZED) (hc : c < DIO_CONFIGURED_CHANNLES)
    (hp : Pin_Num s c = some p) (hP : DIO_PINS_MAX_NUM ≤ p) :
    (Dio_WriteChannel s c Level = some s ∧ Dio_ReadChannel s c = some (s, STD_LOW) ∧
      Dio_FlipChannel s c = some (s, STD_LOW)) ∧
    ∀ out out1 inp inp1 : Nat,
      Dio_WriteChannel (Dio_WithRegs s out out1 inp inp1) c Level =
        some (Dio_WithRegs s out out1 inp inp1) ∧
      (Dio_ReadChannel (Dio_WithRegs s out out1 inp inp1) c).map Prod.snd = some STD_LOW ∧
      (Dio_FlipChannel (Dio_WithRegs s out out1 inp inp1) c).map Prod.snd = some STD_LOW := by
  have hn1 : ¬ p < REG_SIZE := by
    unfold REG_SIZE DIO_PINS_MAX_NUM at *; omega
  have hn2 : ¬ p < DIO_PINS_MAX_NUM := Nat.not_lt.mpr hP
  have main : ∀ t : DioState, t.Dio_Status = DIO_INITIALIZED → Pin_Num t c = some p →
      Dio_WriteChannel t c Level = some t ∧ Dio_ReadChannel t c = some (t, STD_LOW) ∧
        Dio_FlipChannel t c = some (t, STD_LOW) := by
    intro t ht hpt
    refine ⟨?_, ?_, ?_⟩
    · unfold Dio_WriteChannel
      simp only [Dio_DetChecks_pass DIO_WRITE_CHANNEL_SID ht hc, hpt, Option.some_bind,
        if_neg hn1, if_neg hn2, if_true]
      split_ifs <;> rfl
    · rw [Dio_ReadChannel_eq ht hc hpt, if_neg hn1, if_neg hn2]
    · rw [Dio_FlipChannel_eq ht hc hpt]
      simp only [if_neg hn1, if_neg hn2]
      split_ifs <;> rfl
  refine ⟨main s hs hp, fun out out1 inp inp1 => ?_⟩
  have h := main (Dio_WithRegs s out out1 inp inp1) hs hp
  exact ⟨h.1, by rw [h.2.1]; rfl, by rw [h.2.2]; rfl⟩

/-- Witness for C12: a table that puts channel 0 on pin 40, level HIGH. -/
theorem Dio_pin_out_of_range_witness :
    ((Dio_Init (Dio_Startup 5 128 4 128) (some ⟨[⟨40⟩, ⟨2⟩]⟩)).Dio_Status = DIO_INITIALIZED ∧
      0 < DIO_CONFIGURED_CHANNLES ∧
      Pin_Num (Dio_Init (Dio_Startup 5 128 4 128) (some ⟨[⟨40⟩, ⟨2⟩]⟩)) 0 = some 40 ∧
      DIO_PINS_MAX_NUM ≤ 40) ∧
    Dio_WriteChannel (Dio_Init (Dio_Startup 5 128 4 128) (some ⟨[⟨40⟩, ⟨2⟩]⟩)) 0 STD_HIGH =
      some (Dio_Init (Dio_Startup 5 128 4 128) (some ⟨[⟨40⟩, ⟨2⟩]⟩)) ∧
    Dio_ReadChannel (Dio_Init (Dio_Startup 5 128 4 128) (some ⟨[⟨40⟩, ⟨2⟩]⟩)) 0 =
      some (Dio_Init (Dio_Startup 5 128 4 128) (some ⟨[⟨40⟩, ⟨2⟩]⟩), STD_LOW) ∧
    Dio_FlipChannel (Dio_Init (Dio_Startup 5 128 4 128) (some ⟨[⟨40⟩, ⟨2⟩]⟩)) 0 =
      some (Dio_Init (Dio_Startup 5 128 4 128) (some ⟨[⟨40⟩, ⟨2⟩]⟩), STD_LOW) :=
  ⟨by decide,
    (Dio_pin_out_of_range (Dio_Init (Dio_Startup 5 128 4 128) (some ⟨[⟨40⟩, ⟨2⟩]⟩)) 0 40
      STD_HIGH (by decide) (by decide) (by decide) (by decide)).1⟩

/-- C18: in an initialised state, for a configured channel `c` and a level that is neither
`STD_HIGH` nor `STD_LOW`, `Dio_WriteChannel(c, Level)` returns the state it was given: the four
registers are unchanged and no report is made. -/
theorem Dio_WriteChannel_other_level (s : DioState) (c Level : Nat)
    (hs : s.Dio_Status = DIO_INITIALIZED) (hc : c < DIO_CONFIGURED_CHANNLES)
    (hH : Level ≠ STD_HIGH) (hL : Level ≠ STD_LOW) :
    Dio_WriteChannel s c Level = some s := by
  unfold Dio_WriteChannel
  simp only [Dio_DetChecks_pass DIO_WRITE_CHANNEL_SID hs hc, if_neg hH, if_neg hL, if_true]

/-- Witness for C18: channel 0 of the example state, level 2. -/
theorem Dio_WriteChannel_other_level_witness :
    (Dio_Example.Dio_Status = DIO_INITIALIZED ∧ 0 < DIO_CONFIGURED_CHANNLES ∧
      2 ≠ STD_HIGH ∧ 2 ≠ STD_LOW) ∧
    Dio_WriteChannel Dio_Example 0 2 = some Dio_Example :=
  ⟨by decide,
    Dio_WriteChannel_other_level Dio_Example 0 2 (by decide) (by decide) (by decide)
      (by decide)⟩

/-! ## Flipping a channel of bank 0 -/

theorem CLEAR_BIT_SET_BIT_cancel {reg bit : Nat} (h : bit < 32) (hr : reg < 2 ^ 32)
    (hb : reg.testBit bit = false) : CLEAR_BIT (SET_BIT reg bit) bit = reg := by
  refine Nat.eq_of_testBit_eq fun j => ?_
  rw [testBit_CLEAR_BIT h (SET_BIT_lt hr), testBit_SET_BIT h]
  by_cases hj : j = bit
  · subst hj; simp [hb]
  · simp [hj]

theorem SET_BIT_CLEAR_BIT_cancel {reg bit : Nat} (h : bit < 32) (hr : reg < 2 ^ 32)
    (hb : reg.testBit bit = true) : SET_BIT (CLEAR_BIT reg bit) bit = reg := by
  refine Nat.eq_of_testBit_eq fun j => ?_
  rw [testBit_SET_BIT h, testBit_CLEAR_BIT h hr]
  by_cases hj : j = bit
  · subst hj; simp [hb]
  · simp [hj]

/-- C16: in an initialised state, for a configured channel `c` whose pin `p` is below the bank
width, `Dio_FlipChannel(c)` decides on bit `p` of `GPIO_OUT_REG`: if the bit is clear it sets it
and returns HIGH, if it is set it clears it and returns LOW; every other bit of `GPIO_OUT_REG`
and the rest of the state (the other output register and both input registers in particular) are
unchanged; the returned level is the value of the bit after the call; and with other contents of
the two input registers the effect and the returned level are the same. -/
theorem Dio_FlipChannel_bank0_toggle (s : DioState) (c p : Nat)
    (hs : s.Dio_Status = DIO_INITIALIZED) (hc : c < DIO_CONFIGURED_CHANNLES)
    (hp : Pin_Num s c = some p) (hW : p < REG_SIZE) (hr : RegsAreWords s) :
    ∃ out level,
      Dio_FlipChannel s c = some ({ s with GPIO_OUT_REG := out }, level) ∧
      level = (if s.GPIO_OUT_REG.testBit p = true then STD_LOW else STD_HIGH) ∧
      (∀ j, out.testBit j = if j = p then !s.GPIO_OUT_REG.testBit p
                              else s.GPIO_OUT_REG.testBit j) ∧
      level = (if out.testBit p = true then STD_HIGH else STD_LOW) ∧
      ∀ inp inp1 : Nat,
        Dio_FlipChannel { s with GPIO_IN_REG := inp, GPIO_IN1_REG := inp1 } c =
          some ({ s with GPIO_OUT_REG := out, GPIO_IN_REG := inp, GPIO_IN1_REG := inp1 },
            level) := by
  have hW32 : p < 32 := hW
  have hflip : ∀ t : DioState, t.Dio_Status = DIO_INITIALIZED → Pin_Num t c = some p →
      Dio_FlipChannel t c =
        if t.GPIO_OUT_REG.testBit p = true then
          some ({ t with GPIO_OUT_REG := CLEAR_BIT t.GPIO_OUT_REG p }, STD_LOW)
        else some ({ t with GPIO_OUT_REG := SET_BIT t.GPIO_OUT_REG p }, STD_HIGH) := by
    intro t ht hpt
    rw [Dio_FlipChannel_eq ht hc hpt, BIT_IS_CLEAR_of_lt hW32, BIT_IS_SET_of_lt hW32]
    cases t.GPIO_OUT_REG.testBit p <;> simp [hW]
  cases hb : s.GPIO_OUT_REG.testBit p
  · refine ⟨SET_BIT s.GPIO_OUT_REG p, STD_HIGH, ?_, by simp, fun j => ?_, ?_, fun inp inp1 => ?_⟩
    · rw [hflip s hs hp, hb]; rfl
    · rw [testBit_SET_BIT hW32]
      by_cases hj : j = p
      · simp [hj]
      · simp [hj]
    · simp [testBit_SET_BIT_self hW32]
    · rw [hflip { s with GPIO_IN_REG := inp, GPIO_IN1_REG := inp1 } hs hp]
      simp only [hb]
      rfl
  · refine ⟨CLEAR_BIT s.GPIO_OUT_REG p, STD_LOW, ?_, by simp, fun j => ?_, ?_,
      fun inp inp1 => ?_⟩
    · rw [hflip s hs hp, hb]; rfl
    · rw [testBit_CLEAR_BIT hW32 hr.1]
      by_cases hj : j = p
      · simp [hj]
      · simp [hj]
    · simp [testBit_CLEAR_BIT_self hW32]
    · rw [hflip { s with GPIO_IN_REG := inp, GPIO_IN1_REG := inp1 } hs hp]
      simp only [hb]
      rfl

/-- Witness for C16: channel 0 (pin 2) of the example state, whose bit 2 of `GPIO_OUT_REG` is
set. -/
theorem Dio_FlipChannel_bank0_toggle_witness :
    (Dio_Example.Dio_Status = DIO_INITIALIZED ∧ 0 < DIO_CONFIGURED_CHANNLES ∧
      Pin_Num Dio_Example 0 = some 2 ∧ 2 < REG_SIZE ∧ RegsAreWords Dio_Example) ∧
    ∃ out level,
      Dio_FlipChannel Dio_Example 0 = some ({ Dio_Example with GPIO_OUT_REG := out }, level) ∧
      level = (if Dio_Example.GPIO_OUT_REG.testBit 2 = true then STD_LOW else STD_HIGH) ∧
      (∀ j, out.testBit j = if j = 2 then !Dio_Example.GPIO_OUT_REG.testBit 2
                              else Dio_Example.GPIO_OUT_REG.testBit j) ∧
      level = (if out.testBit 2 = true then STD_HIGH else STD_LOW) ∧
      ∀ inp inp1 : Nat,
        Dio_FlipChannel { Dio_Example with GPIO_IN_REG := inp, GPIO_IN1_REG := inp1 } 0 =
          some ({ Dio_Example with GPIO_OUT_REG := out, GPIO_IN_REG := inp,
                                   GPIO_IN1_REG := inp1 }, level) :=
  ⟨by decide,
    Dio_FlipChannel_bank0_toggle Dio_Example 0 2 (by decide) (by decide) (by decide) (by decide)
      (by decide)⟩

/-- C19: in an initialised state, for a configured channel `c` whose pin is below the bank width,
two `Dio_FlipChannel(c)` calls in a row give back the state they started from, and of the two
returned levels one is HIGH and the other is LOW. -/
theorem Dio_FlipChannel_twice (s : DioState) (c p : Nat)
    (hs : s.Dio_Status = DIO_INITIALIZED) (hc : c < DIO_CONFIGURED_CHANNLES)
    (hp : Pin_Num s c = some p) (hW : p < REG_SIZE) (hr : RegsAreWords s) :
    ∃ t level1 level2,
      Dio_FlipChannel s c = some (t, level1) ∧ Dio_FlipChannel t c = some (s, level2) ∧
      ((level1 = STD_HIGH ∧ level2 = STD_LOW) ∨ (level1 = STD_LOW ∧ level2 = STD_HIGH)) := by
  have hW32 : p < 32 := hW
  have hflip : ∀ t : DioState, t.Dio_Status = DIO_INITIALIZED → Pin_Num t c = some p →
      Dio_FlipChannel t c =
        if t.GPIO_OUT_REG.testBit p = true then
          some ({ t with GPIO_OUT_REG := CLEAR_BIT t.GPIO_OUT_REG p }, STD_LOW)
        else some ({ t with GPIO_OUT_REG := SET_BIT t.GPIO_OUT_REG p }, STD_HIGH) := by
    intro t ht hpt
    rw [Dio_FlipChannel_eq ht hc hpt, BIT_IS_CLEAR_of_lt hW32, BIT_IS_SET_of_lt hW32]
    cases t.GPIO_OUT_REG.testBit p <;> simp [hW]
  cases hb : s.GPIO_OUT_REG.testBit p
  · refine ⟨{ s with GPIO_OUT_REG := SET_BIT s.GPIO_OUT_REG p }, STD_HIGH, STD_LOW, ?_, ?_,
      Or.inl ⟨rfl, rfl⟩⟩
    · rw [hflip s hs hp, hb]; rfl
    · rw [hflip { s with GPIO_OUT_REG := SET_BIT s.GPIO_OUT_REG p } hs hp]
      simp only [testBit_SET_BIT_self hW32, if_true, CLEAR_BIT_SET_BIT_cancel hW32 hr.1 hb]
  · refine ⟨{ s with GPIO_OUT_REG := CLEAR_BIT s.GPIO_OUT_REG p }, STD_LOW, STD_HIGH, ?_, ?_,
      Or.inr ⟨rfl, rfl⟩⟩
    · rw [hflip s hs hp, hb]; rfl
    · rw [hflip { s with GPIO_OUT_REG := CLEAR_BIT s.GPIO_OUT_REG p } hs hp]
      simp only [testBit_CLEAR_BIT_self hW32, SET_BIT_CLEAR_BIT_cancel hW32 hr.1 hb]
      rfl

/-- Witness for C19: channel 0 (pin 2) of the example state. -/
theorem Dio_FlipChannel_twice_witness :
    (Dio_Example.Dio_Status = DIO_INITIALIZED ∧ 0 < DIO_CONFIGURED_CHANNLES ∧
      Pin_Num Dio_Example 0 = some 2 ∧ 2 < REG_SIZE ∧ RegsAreWords Dio_Example) ∧
    ∃ t level1 level2,
      Dio_FlipChannel Dio_Example 0 = some (t, level1) ∧
      Dio_FlipChannel t 0 = some (Dio_Example, level2) ∧
      ((level1 = STD_HIGH ∧ level2 = STD_LOW) ∨ (level1 = STD_LOW ∧ level2 = STD_HIGH)) :=
  ⟨by decide,
    Dio_FlipChannel_twice Dio_Example 0 2 (by decide) (by decide) (by decide) (by decide)
      (by decide)⟩

/-! ## Writing two channels -/

theorem testBit_CLEAR_BIT_mask {reg bit : Nat} (h : bit < 32) (j : Nat) :
    (CLEAR_BIT reg bit).testBit j =
      (reg.testBit j && (decide (j < 32) ^^ decide (bit = j))) := by
  unfold CLEAR_BIT
  rw [BIT_MASK_of_lt h, Nat.testBit_and, Nat.testBit_xor, Nat.testBit_two_pow_sub_one,
    Nat.testBit_two_pow]

theorem SET_BIT_comm (reg i j : Nat) :
    SET_BIT (SET_BIT reg i) j = SET_BIT (SET_BIT reg j) i := by
  unfold SET_BIT
  refine Nat.eq_of_testBit_eq fun k => ?_
  simp only [Nat.testBit_or]
  cases reg.testBit k <;> cases (BIT_MASK i).testBit k <;> cases (BIT_MASK j).testBit k <;> rfl

theorem CLEAR_BIT_comm (reg i j : Nat) :
    CLEAR_BIT (CLEAR_BIT reg i) j = CLEAR_BIT (CLEAR_BIT reg j) i := by
  unfold CLEAR_BIT
  refine Nat.eq_of_testBit_eq fun k => ?_
  simp only [Nat.testBit_and]
  cases reg.testBit k <;> cases ((2 ^ 32 - 1) ^^^ BIT_MASK i).testBit k <;>
    cases ((2 ^ 32 - 1) ^^^ BIT_MASK j).testBit k <;> rfl

theorem CLEAR_BIT_SET_BIT_comm {reg i j : Nat} (hi : i < 32) (hj : j < 32) (hij : i ≠ j) :
    CLEAR_BIT (SET_BIT reg i) j = SET_BIT (CLEAR_BIT reg j) i := by
  refine Nat.eq_of_testBit_eq fun k => ?_
  rw [testBit_CLEAR_BIT_mask hj, testBit_SET_BIT hi, testBit_SET_BIT hi,
    testBit_CLEAR_BIT_mask hj]
  by_cases hk : k = i
  · subst hk
    have : ¬ j = k := fun e => hij e.symm
    simp [hi, this]
  · simp [hk]

/-- C20: in an initialised state, for two configured channels `a` and `b` whose pins are distinct
and both below `DIO_PINS_MAX_NUM` and two levels out of HIGH and LOW, `Dio_WriteChannel(a, La)`
followed by `Dio_WriteChannel(b, Lb)` yields the state that `Dio_WriteChannel(b, Lb)` followed
by `Dio_WriteChannel(a, La)` yields. -/
theorem Dio_WriteChannel_comm (s : DioState) (a b pa pb La Lb : Nat)
    (hs : s.Dio_Status = DIO_INITIALIZED)
    (ha : a < DIO_CONFIGURED_CHANNLES) (hb : b < DIO_CONFIGURED_CHANNLES)
    (hpa : Pin_Num s a = some pa) (hpb : Pin_Num s b = some pb) (hne : pa ≠ pb)
    (hPa : pa < DIO_PINS_MAX_NUM) (hPb : pb < DIO_PINS_MAX_NUM)
    (hLa : La = STD_HIGH ∨ La = STD_LOW) (hLb : Lb = STD_HIGH ∨ Lb = STD_LOW) :
    ∃ ta tb t,
      Dio_WriteChannel s a La = some ta ∧ Dio_WriteChannel ta b Lb = some t ∧
      Dio_WriteChannel s b Lb = some tb ∧ Dio_WriteChannel tb a La = some t := by
  -- the effect of a write on the two output registers, by bank and level
  have hw : ∀ (t : DioState) (c p L : Nat), t.Dio_Status = DIO_INITIALIZED →
      c < DIO_CONFIGURED_CHANNLES → Pin_Num t c = some p → p < DIO_PINS_MAX_NUM →
      (L = STD_HIGH ∨ L = STD_LOW) →
      Dio_WriteChannel t c L = some
        (if p < REG_SIZE then
          { t with GPIO_OUT_REG :=
              if L = STD_HIGH then SET_BIT t.GPIO_OUT_REG p else CLEAR_BIT t.GPIO_OUT_REG p }
         else
          { t with GPIO_OUT1_REG :=
              if L = STD_HIGH then SET_BIT t.GPIO_OUT1_REG (p - REG_SIZE)
              else CLEAR_BIT t.GPIO_OUT1_REG (p - REG_SIZE) }) := by
    intro t c p L ht hc hpt hP hL
    have hLH : ¬ STD_LOW = STD_HIGH := by decide
    rcases hL with rfl | rfl
    · rw [Dio_WriteChannel_HIGH_eq ht hc hpt]
      by_cases hW : p < REG_SIZE
      · simp [hW]
      · simp [hW, hP]
    · rw [Dio_WriteChannel_LOW_eq ht hc hpt]
      by_cases hW : p < REG_SIZE
      · simp [hW, hLH]
      · simp [hW, hP, hLH]
  have hst : ∀ (t : DioState) (p L : Nat),
      (if p < REG_SIZE then
          ({ t with GPIO_OUT_REG :=
              if L = STD_HIGH then SET_BIT t.GPIO_OUT_REG p else CLEAR_BIT t.GPIO_OUT_REG p } :
            DioState)
         else
          { t with GPIO_OUT1_REG :=
              if L = STD_HIGH then SET_BIT t.GPIO_OUT1_REG (p - REG_SIZE)
              else CLEAR_BIT t.GPIO_OUT1_REG (p - REG_SIZE) }).Dio_Status = t.Dio_Status ∧
      ∀ c, Pin_Num (if p < REG_SIZE then
          ({ t with GPIO_OUT_REG :=
              if L = STD_HIGH then SET_BIT t.GPIO_OUT_REG p else CLEAR_BIT t.GPIO_OUT_REG p } :
            DioState)
         else
          { t with GPIO_OUT1_REG :=
              if L = STD_HIGH then SET_BIT t.GPIO_OUT1_REG (p - REG_SIZE)
              else CLEAR_BIT t.GPIO_OUT1_REG (p - REG_SIZE) }) c = Pin_Num t c := by
    intro t p L
    by_cases hW : p < REG_SIZE
    · rw [if_pos hW]; exact ⟨rfl, fun _ => rfl⟩
    · rw [if_neg hW]; exact ⟨rfl, fun _ => rfl⟩
  refine ⟨_, _, _, hw s a pa La hs ha hpa hPa hLa,
    hw _ b pb Lb ((hst s pa La).1.trans hs) hb (((hst s pa La).2 b).trans hpb) hPb hLb,
    hw s b pb Lb hs hb hpb hPb hLb, ?_⟩
  rw [hw _ a pa La ((hst s pb Lb).1.trans hs) ha (((hst s pb Lb).2 a).trans hpa) hPa hLa]
  congr 1
  have hLH : ¬ STD_LOW = STD_HIGH := by decide
  by_cases hWa : pa < REG_SIZE <;> by_cases hWb : pb < REG_SIZE
  · have ha32 : pa < 32 := hWa
    have hb32 : pb < 32 := hWb
    rcases hLa with rfl | rfl <;> rcases hLb with rfl | rfl <;>
      simp only [if_pos hWa, if_pos hWb, if_true, if_neg hLH]
    · rw [SET_BIT_comm]
    · rw [CLEAR_BIT_SET_BIT_comm ha32 hb32 hne]
    · rw [CLEAR_BIT_SET_BIT_comm hb32 ha32 (Ne.symm hne)]
    · rw [CLEAR_BIT_comm]
  · simp only [if_pos hWa, if_neg hWb]
  · simp only [if_neg hWa, if_pos hWb]
  · have ha32 : pa - REG_SIZE < 32 := by
      unfold REG_SIZE DIO_PINS_MAX_NUM at *; omega
    have hb32 : pb - REG_SIZE < 32 := by
      unfold REG_SIZE DIO_PINS_MAX_NUM at *; omega
    have hne2 : pa - REG_SIZE ≠ pb - REG_SIZE := by
      unfold REG_SIZE at *; omega
    rcases hLa with rfl | rfl <;> rcases hLb with rfl | rfl <;>
      simp only [if_neg hWa, if_neg hWb, if_true, if_neg hLH]
    · rw [SET_BIT_comm]
    · rw [CLEAR_BIT_SET_BIT_comm ha32 hb32 hne2]
    · rw [CLEAR_BIT_SET_BIT_comm hb32 ha32 (Ne.symm hne2)]
    · rw [CLEAR_BIT_comm]

/-- Witness for C20: channel 0 (pin 2) written HIGH and channel 1 (pin 39) written LOW in the
example state. -/
theorem Dio_WriteChannel_comm_witness :
    (Dio_Example.Dio_Status = DIO_INITIALIZED ∧
      0 < DIO_CONFIGURED_CHANNLES ∧ 1 < DIO_CONFIGURED_CHANNLES ∧
      Pin_Num Dio_Example 0 = some 2 ∧ Pin_Num Dio_Example 1 = some 39 ∧ 2 ≠ 39 ∧
      2 < DIO_PINS_MAX_NUM ∧ 39 < DIO_PINS_MAX_NUM ∧
      (STD_HIGH = STD_HIGH ∨ STD_HIGH = STD_LOW) ∧ (STD_LOW = STD_HIGH ∨ STD_LOW = STD_LOW)) ∧
    ∃ ta tb t,
      Dio_WriteChannel Dio_Example 0 STD_HIGH = some ta ∧
      Dio_WriteChannel ta 1 STD_LOW = some t ∧
      Dio_WriteChannel Dio_Example 1 STD_LOW = some tb ∧
      Dio_WriteChannel tb 0 STD_HIGH = some t :=
  ⟨by decide,
    Dio_WriteChannel_comm Dio_Example 0 1 2 39 STD_HIGH STD_LOW (by decide) (by decide)
      (by decide) (by decide) (by decide) (by decide) (by decide) (by decide) (by decide)
      (by decide)⟩

/-! ## What a service leaves alone, and when it has a result -/

theorem Dio_DetChecks_frame (s : DioState) (ApiId : Dio_ServiceId) (c : Nat) :
    (Dio_DetChecks s ApiId c).1.Dio_Status = s.Dio_Status ∧
    (Dio_DetChecks s ApiId c).1.Dio_PortChannels = s.Dio_PortChannels := by
  rw [Dio_DetChecks_eq]
  exact ⟨rfl, rfl⟩

theorem Dio_WriteChannel_frame {s t : DioState} {c Level : Nat}
    (h : Dio_WriteChannel s c Level = some t) :
    t.Dio_Status = s.Dio_Status ∧ t.Dio_PortChannels = s.Dio_PortChannels ∧
      t.Det_Errors = (Dio_DetChecks s DIO_WRITE_CHANNEL_SID c).1.Det_Errors := by
  unfold Dio_WriteChannel at h
  obtain ⟨h1, h2⟩ := Dio_DetChecks_frame s DIO_WRITE_CHANNEL_SID c
  generalize Dio_DetChecks s DIO_WRITE_CHANNEL_SID c = r at h h1 h2 ⊢
  obtain ⟨r1, r2⟩ := r
  simp only at h h1 h2 ⊢
  cases hpn : Pin_Num r1 c <;> simp only [hpn, Option.none_bind, Option.some_bind] at h <;>
    split_ifs at h <;> cases h <;> exact ⟨h1, h2, rfl⟩

theorem Dio_ReadChannel_frame {s t : DioState} {c level : Nat}
    (h : Dio_ReadChannel s c = some (t, level)) :
    t.Dio_Status = s.Dio_Status ∧ t.Dio_PortChannels = s.Dio_PortChannels ∧
      t.Det_Errors = (Dio_DetChecks s DIO_READ_CHANNEL_SID c).1.Det_Errors := by
  unfold Dio_ReadChannel at h
  obtain ⟨h1, h2⟩ := Dio_DetChecks_frame s DIO_READ_CHANNEL_SID c
  generalize Dio_DetChecks s DIO_READ_CHANNEL_SID c = r at h h1 h2 ⊢
  obtain ⟨r1, r2⟩ := r
  simp only at h h1 h2 ⊢
  cases hpn : Pin_Num r1 c <;> simp only [hpn, Option.none_bind, Option.some_bind] at h <;>
    split_ifs at h <;> cases h <;> exact ⟨h1, h2, rfl⟩

theorem Dio_FlipChannel_frame {s t : DioState} {c level : Nat}
    (h : Dio_FlipChannel s c = some (t, level)) :
    t.Dio_Status = s.Dio_Status ∧ t.Dio_PortChannels = s.Dio_PortChannels ∧
      t.Det_Errors = (Dio_DetChecks s DIO_WRITE_CHANNEL_SID c).1.Det_Errors := by
  unfold Dio_FlipChannel at h
  obtain ⟨h1, h2⟩ := Dio_DetChecks_frame s DIO_WRITE_CHANNEL_SID c
  generalize Dio_DetChecks s DIO_WRITE_CHANNEL_SID c = r at h h1 h2 ⊢
  obtain ⟨r1, r2⟩ := r
  simp only at h h1 h2 ⊢
  cases hpn : Pin_Num r1 c <;> simp only [hpn, Option.none_bind, Option.some_bind] at h <;>
    split_ifs at h <;> cases h <;> exact ⟨h1, h2, rfl⟩

theorem Dio_Consistent_status {s : DioState} (h : Dio_Consistent s) :
    s.Dio_Status = DIO_INITIALIZED ∨ s.Dio_Status = DIO_NOT_INITIALIZED := by
  rcases h with ⟨_, h0⟩ | ⟨h1, _⟩
  · exact Or.inr h0
  · exact Or.inl h1

theorem Dio_Consistent_of_eq {s t : DioState} (h : Dio_Consistent s)
    (h1 : t.Dio_Status = s.Dio_Status) (h2 : t.Dio_PortChannels = s.Dio_PortChannels) :
    Dio_Consistent t := by
  unfold Dio_Consistent at h ⊢
  rw [h1, h2]
  exact h

theorem Dio_Consistent_lookup {s : DioState} {c : Nat} (h : Dio_Consistent s)
    (hs : s.Dio_Status = DIO_INITIALIZED) (hc : c < DIO_CONFIGURED_CHANNLES) :
    ∃ p, Pin_Num s c = some p := by
  rcases h with ⟨_, h0⟩ | ⟨_, hl⟩
  · rw [hs] at h0
    exact absurd h0 (by decide)
  · unfold Pin_Num
    cases htab : s.Dio_PortChannels with
    | none => rw [htab] at hl; cases hl
    | some Channels =>
      rw [htab] at hl
      have hlen : Channels.length = DIO_CONFIGURED_CHANNLES := by
        simpa using hl
      have hlt : c < Channels.length := by rw [hlen]; exact hc
      exact ⟨(Channels[c]).Pin_Num, by simp [List.getElem?_eq_getElem hlt]⟩

theorem Dio_services_total {s : DioState} (h : Dio_Consistent s) (c Level : Nat) :
    (∃ t, Dio_WriteChannel s c Level = some t) ∧
    (∃ t level, Dio_ReadChannel s c = some (t, level)) ∧
    (∃ t level, Dio_FlipChannel s c = some (t, level)) := by
  by_cases hg : DIO_NOT_INITIALIZED = s.Dio_Status ∨ DIO_CONFIGURED_CHANNLES ≤ c
  · refine ⟨?_, ?_, ?_⟩
    · unfold Dio_WriteChannel
      simp [Dio_DetChecks_eq, hg]
    · unfold Dio_ReadChannel
      simp [Dio_DetChecks_eq, hg]
    · unfold Dio_FlipChannel
      simp [Dio_DetChecks_eq, hg]
  · have hs : s.Dio_Status = DIO_INITIALIZED := by
      rcases Dio_Consistent_status h with h1 | h0
      · exact h1
      · exact absurd (Or.inl h0.symm) hg
    have hc : c < DIO_CONFIGURED_CHANNLES := Nat.lt_of_not_le fun hle => hg (Or.inr hle)
    obtain ⟨p, hp⟩ := Dio_Consistent_lookup h hs hc
    refine ⟨?_, ?_, ?_⟩
    · by_cases hH : Level = STD_HIGH
      · subst hH
        rw [Dio_WriteChannel_HIGH_eq hs hc hp]
        split_ifs <;> exact ⟨_, rfl⟩
      · by_cases hL : Level = STD_LOW
        · subst hL
          rw [Dio_WriteChannel_LOW_eq hs hc hp]
          split_ifs <;> exact ⟨_, rfl⟩
        · refine ⟨s, ?_⟩
          unfold Dio_WriteChannel
          simp only [Dio_DetChecks_pass DIO_WRITE_CHANNEL_SID hs hc, if_neg hH, if_neg hL,
            if_true]
    · rw [Dio_ReadChannel_eq hs hc hp]
      split_ifs <;> exact ⟨_, _, rfl⟩
    · rw [Dio_FlipChannel_eq hs hc hp]
      split_ifs <;> exact ⟨_, _, rfl⟩

theorem Dio_Step_frame {s t : DioState} {op : Dio_Op} (h : Dio_Step s op = some t)
    (hop : ∀ ConfigPtr, op ≠ Dio_Op.Init ConfigPtr) :
    t.Dio_Status = s.Dio_Status ∧ t.Dio_PortChannels = s.Dio_PortChannels := by
  cases op with
  | Init ConfigPtr => exact absurd rfl (hop ConfigPtr)
  | WriteChannel c Level =>
    have := Dio_WriteChannel_frame h
    exact ⟨this.1, this.2.1⟩
  | ReadChannel c =>
    change (Dio_ReadChannel s c).map Prod.fst = some t at h
    cases hr : Dio_ReadChannel s c with
    | none => rw [hr] at h; cases h
    | some r =>
      obtain ⟨u, level⟩ := r
      rw [hr] at h
      cases h
      have := Dio_ReadChannel_frame hr
      exact ⟨this.1, this.2.1⟩
  | FlipChannel c =>
    change (Dio_FlipChannel s c).map Prod.fst = some t at h
    cases hr : Dio_FlipChannel s c with
    | none => rw [hr] at h; cases h
    | some r =>
      obtain ⟨u, level⟩ := r
      rw [hr] at h
      cases h
      have := Dio_FlipChannel_frame hr
      exact ⟨this.1, this.2.1⟩
  | GetVersionInfo v versioninfo =>
    unfold Dio_Step at h
    cases h
    cases versioninfo <;> exact ⟨rfl, rfl⟩

theorem Dio_Step_keeps_initialized {s t : DioState} {op : Dio_Op} (h : Dio_Step s op = some t)
    (hs : s.Dio_Status = DIO_INITIALIZED) : t.Dio_Status = DIO_INITIALIZED := by
  cases op with
  | Init ConfigPtr =>
    unfold Dio_Step at h
    cases h
    cases ConfigPtr with
    | none => exact hs
    | some Config => rfl
  | WriteChannel c Level =>
    exact (Dio_Step_frame h (fun _ => by simp)).1.trans hs
  | ReadChannel c =>
    exact (Dio_Step_frame h (fun _ => by simp)).1.trans hs
  | FlipChannel c =>
    exact (Dio_Step_frame h (fun _ => by simp)).1.trans hs
  | GetVersionInfo v versioninfo =>
    exact (Dio_Step_frame h (fun _ => by simp)).1.trans hs

theorem Dio_Run_keeps_initialized (ops : List Dio_Op) :
    ∀ s t : DioState, Dio_Run s ops = some t → s.Dio_Status = DIO_INITIALIZED →
      t.Dio_Status = DIO_INITIALIZED := by
  induction ops with
  | nil =>
    intro s t h hs
    unfold Dio_Run at h
    cases h
    exact hs
  | cons op ops ih =>
    intro s t h hs
    unfold Dio_Run at h
    cases hst : Dio_Step s op with
    | none => rw [hst] at h; cases h
    | some u =>
      rw [hst] at h
      exact ih u t h (Dio_Step_keeps_initialized hst hs)

theorem Dio_Step_total {s : DioState} (h : Dio_Consistent s) (op : Dio_Op) :
    ∃ t, Dio_Step s op = some t := by
  cases op with
  | Init ConfigPtr => exact ⟨_, rfl⟩
  | WriteChannel c Level => exact (Dio_services_total h c Level).1
  | ReadChannel c =>
    obtain ⟨t, level, hr⟩ := (Dio_services_total h c 0).2.1
    exact ⟨t, by show (Dio_ReadChannel s c).map Prod.fst = some t; rw [hr]; rfl⟩
  | FlipChannel c =>
    obtain ⟨t, level, hr⟩ := (Dio_services_total h c 0).2.2
    exact ⟨t, by show (Dio_FlipChannel s c).map Prod.fst = some t; rw [hr]; rfl⟩
  | GetVersionInfo v versioninfo => exact ⟨_, rfl⟩

theorem Dio_Step_consistent {s t : DioState} {op : Dio_Op} (h : Dio_Consistent s)
    (hop : op.TableComplete) (hst : Dio_Step s op = some t) : Dio_Consistent t := by
  cases op with
  | Init ConfigPtr =>
    unfold Dio_Step at hst
    cases hst
    cases ConfigPtr with
    | none => exact Dio_Consistent_of_eq h rfl rfl
    | some Config =>
      have hlen : Config.Channels.length = DIO_CONFIGURED_CHANNLES := hop
      exact Or.inr ⟨rfl, by simp [Dio_Init, hlen]⟩
  | WriteChannel c Level =>
    have := Dio_Step_frame hst (fun _ => by simp)
    exact Dio_Consistent_of_eq h this.1 this.2
  | ReadChannel c =>
    have := Dio_Step_frame hst (fun _ => by simp)
    exact Dio_Consistent_of_eq h this.1 this.2
  | FlipChannel c =>
    have := Dio_Step_frame hst (fun _ => by simp)
    exact Dio_Consistent_of_eq h this.1 this.2
  | GetVersionInfo v versioninfo =>
    have := Dio_Step_frame hst (fun _ => by simp)
    exact Dio_Consistent_of_eq h this.1 this.2

theorem Dio_Run_total (ops : List Dio_Op) :
    ∀ s : DioState, Dio_Consistent s → (∀ op ∈ ops, op.TableComplete) →
      ∃ t, Dio_Run s ops = some t ∧ Dio_Consistent t := by
  induction ops with
  | nil =>
    intro s h _
    exact ⟨s, rfl, h⟩
  | cons op ops ih =>
    intro s h hops
    obtain ⟨u, hu⟩ := Dio_Step_total h op
    have hcu : Dio_Consistent u :=
      Dio_Step_consistent h (hops op (List.mem_cons_self op ops)) hu
    obtain ⟨t, ht, hct⟩ := ih u hcu (fun o ho => hops o (List.mem_cons_of_mem op ho))
    refine ⟨t, ?_, hct⟩
    unfold Dio_Run
    rw [hu]
    exact ht

theorem Dio_services_guard_fail (s : DioState) (c Level : Nat)
    (hg : DIO_NOT_INITIALIZED = s.Dio_Status ∨ DIO_CONFIGURED_CHANNLES ≤ c) :
    (∃ t, Dio_WriteChannel s c Level = some t) ∧
    (∃ r, Dio_ReadChannel s c = some r) ∧
    (∃ r, Dio_FlipChannel s c = some r) := by
  refine ⟨?_, ?_, ?_⟩
  · unfold Dio_WriteChannel
    simp [Dio_DetChecks_eq, hg]
  · unfold Dio_ReadChannel
    simp [Dio_DetChecks_eq, hg]
  · unfold Dio_FlipChannel
    simp [Dio_DetChecks_eq, hg]

theorem Dio_IndexesTable_guard {s : DioState} {c : Nat} (hcons : Dio_Consistent s)
    (hg : ¬ (s.Dio_Status = DIO_INITIALIZED ∧ c < DIO_CONFIGURED_CHANNLES)) (Level : Nat) :
    Dio_IndexesTable s (.WriteChannel c Level) = false ∧
    Dio_IndexesTable s (.ReadChannel c) = false ∧
    Dio_IndexesTable s (.FlipChannel c) = false := by
  have hg2 : DIO_NOT_INITIALIZED = s.Dio_Status ∨ DIO_CONFIGURED_CHANNLES ≤ c := by
    rcases Dio_Consistent_status hcons with h1 | h0
    · exact Or.inr (Nat.le_of_not_lt fun hc => hg ⟨h1, hc⟩)
    · exact Or.inl h0.symm
  obtain ⟨⟨t, hw⟩, ⟨r, hr⟩, ⟨f, hf⟩⟩ :=
    Dio_services_guard_fail { s with Dio_PortChannels := none } c Level hg2
  refine ⟨?_, ?_, ?_⟩
  · show (Dio_WriteChannel { s with Dio_PortChannels := none } c Level).isNone = false
    rw [hw]; rfl
  · show ((Dio_ReadChannel { s with Dio_PortChannels := none } c).map Prod.fst).isNone = false
    rw [hr]; rfl
  · show ((Dio_FlipChannel { s with Dio_PortChannels := none } c).map Prod.fst).isNone = false
    rw [hf]; rfl

/-! ## The status and the table over the calls -/

/-- C13: the status at start-up is NOT_INITIALIZED; `Dio_WriteChannel`, `Dio_ReadChannel`,
`Dio_FlipChannel` and `Dio_GetVersionInfo` leave the status and the stored table reference as
they were, for any arguments; once the status is INITIALIZED it is INITIALIZED after any call
(`Dio_Init(NULL_PTR)` included) and after any sequence of calls; and from a state whose two
private variables fit together every call has a result. -/
theorem Dio_status_monotone :
    (∀ out out1 inp inp1 : Nat,
      (Dio_Startup out out1 inp inp1).Dio_Status = DIO_NOT_INITIALIZED) ∧
    (∀ (s t : DioState) (c Level : Nat), Dio_WriteChannel s c Level = some t →
      t.Dio_Status = s.Dio_Status ∧ t.Dio_PortChannels = s.Dio_PortChannels) ∧
    (∀ (s t : DioState) (c level : Nat), Dio_ReadChannel s c = some (t, level) →
      t.Dio_Status = s.Dio_Status ∧ t.Dio_PortChannels = s.Dio_PortChannels) ∧
    (∀ (s t : DioState) (c level : Nat), Dio_FlipChannel s c = some (t, level) →
      t.Dio_Status = s.Dio_Status ∧ t.Dio_PortChannels = s.Dio_PortChannels) ∧
    (∀ (v : Nat) (s : DioState) (versioninfo : Option Std_VersionInfoType),
      (Dio_GetVersionInfo v s versioninfo).1.Dio_Status = s.Dio_Status ∧
      (Dio_GetVersionInfo v s versioninfo).1.Dio_PortChannels = s.Dio_PortChannels) ∧
    (∀ (s t : DioState) (op : Dio_Op), Dio_Step s op = some t →
      s.Dio_Status = DIO_INITIALIZED → t.Dio_Status = DIO_INITIALIZED) ∧
    (∀ (s t : DioState) (ops : List Dio_Op), Dio_Run s ops = some t →
      s.Dio_Status = DIO_INITIALIZED → t.Dio_Status = DIO_INITIALIZED) ∧
    (∀ (s : DioState) (op : Dio_Op), Dio_Consistent s → ∃ t, Dio_Step s op = some t) := by
  refine ⟨fun _ _ _ _ => rfl, fun s t c Level h => ?_, fun s t c level h => ?_,
    fun s t c level h => ?_, fun v s versioninfo => ?_,
    fun s t op h hs => Dio_Step_keeps_initialized h hs,
    fun s t ops h hs => Dio_Run_keeps_initialized ops s t h hs,
    fun s op h => Dio_Step_total h op⟩
  · exact ⟨(Dio_WriteChannel_frame h).1, (Dio_WriteChannel_frame h).2.1⟩
  · exact ⟨(Dio_ReadChannel_frame h).1, (Dio_ReadChannel_frame h).2.1⟩
  · exact ⟨(Dio_FlipChannel_frame h).1, (Dio_FlipChannel_frame h).2.1⟩
  · cases versioninfo <;> exact ⟨rfl, rfl⟩

/-- Witness for C13: the example calls made from the example state, which is initialised, have a
result, and its status is INITIALIZED. -/
theorem Dio_status_monotone_witness :
    Dio_Example.Dio_Status = DIO_INITIALIZED ∧
    ∃ t, Dio_Run Dio_Example Dio_ExampleCalls = some t ∧ t.Dio_Status = DIO_INITIALIZED :=
  ⟨by decide,
    ⟨{ Dio_Example with
        Det_Errors := [⟨DIO_MODULE_ID, DIO_INSTANCE_ID, DIO_INIT_SID, DIO_E_PARAM_CONFIG⟩,
          ⟨DIO_MODULE_ID, DIO_INSTANCE_ID, DIO_READ_CHANNEL_SID, DIO_E_PARAM_INVALID_CHANNEL_ID⟩,
          ⟨DIO_MODULE_ID, DIO_INSTANCE_ID, DIO_GET_VERSION_INFO_SID, DIO_E_PARAM_POINTER⟩,
          ⟨DIO_MODULE_ID, DIO_INSTANCE_ID, DIO_INIT_SID, DIO_E_PARAM_CONFIG⟩] },
      by decide,
      Dio_status_monotone.2.2.2.2.2.2.1 Dio_Example _ Dio_ExampleCalls (by decide)
        (by decide)⟩⟩

/-- C14: from start-up, after any sequence of calls in which `Dio_Init` was only handed channel
tables of `DIO_CONFIGURED_CHANNLES` entries, the sequence has a result (no table access in it
was without one), and in the state reached, for every channel id and level: each of
`Dio_WriteChannel`, `Dio_ReadChannel` and `Dio_FlipChannel` has a result; each performs the
table access only when the status is INITIALIZED and the channel id is below
`DIO_CONFIGURED_CHANNLES`; and under that condition the table is there and the access is within
it. -/
theorem Dio_table_access_guarded (out out1 inp inp1 : Nat) (ops : List Dio_Op)
    (hops : ∀ op ∈ ops, op.TableComplete) :
    ∃ s, Dio_Run (Dio_Startup out out1 inp inp1) ops = some s ∧
      ∀ c Level : Nat,
        ((∃ t, Dio_WriteChannel s c Level = some t) ∧
          (∃ t level, Dio_ReadChannel s c = some (t, level)) ∧
          (∃ t level, Dio_FlipChannel s c = some (t, level))) ∧
        (Dio_IndexesTable s (.WriteChannel c Level) = true →
          s.Dio_Status = DIO_INITIALIZED ∧ c < DIO_CONFIGURED_CHANNLES) ∧
        (Dio_IndexesTable s (.ReadChannel c) = true →
          s.Dio_Status = DIO_INITIALIZED ∧ c < DIO_CONFIGURED_CHANNLES) ∧
        (Dio_IndexesTable s (.FlipChannel c) = true →
          s.Dio_Status = DIO_INITIALIZED ∧ c < DIO_CONFIGURED_CHANNLES) ∧
        (s.Dio_Status = DIO_INITIALIZED → c < DIO_CONFIGURED_CHANNLES →
          ∃ Channels p, s.Dio_PortChannels = some Channels ∧
            Channels.length = DIO_CONFIGURED_CHANNLES ∧ Pin_Num s c = some p) := by
  have h0 : Dio_Consistent (Dio_Startup out out1 inp inp1) := Or.inl ⟨rfl, rfl⟩
  obtain ⟨s, hrun, hcons⟩ := Dio_Run_total ops _ h0 hops
  refine ⟨s, hrun, fun c Level => ⟨Dio_services_total hcons c Level, ?_, ?_, ?_, ?_⟩⟩
  · intro hi
    by_contra hg
    rw [(Dio_IndexesTable_guard hcons hg Level).1] at hi
    cases hi
  · intro hi
    by_contra hg
    rw [(Dio_IndexesTable_guard hcons hg Level).2.1] at hi
    cases hi
  · intro hi
    by_contra hg
    rw [(Dio_IndexesTable_guard hcons hg Level).2.2] at hi
    cases hi
  · intro hs hc
    obtain ⟨p, hp⟩ := Dio_Consistent_lookup hcons hs hc
    rcases hcons with ⟨_, hn⟩ | ⟨_, hl⟩
    · rw [hs] at hn
      exact absurd hn (by decide)
    · cases htab : s.Dio_PortChannels with
      | none => rw [htab] at hl; cases hl
      | some Channels =>
        rw [htab] at hl
        exact ⟨Channels, p, rfl, by simpa using hl, hp⟩

/-- Witness for C14: the example calls from start-up.  They end initialised on the table of the
spec scenario, where `Dio_FlipChannel(1)` performs the table access. -/
theorem Dio_table_access_guarded_witness :
    (∀ op ∈ Dio_ExampleCalls, op.TableComplete) ∧
    Dio_IndexesTable (Dio_Init (Dio_Startup 5 128 4 128) (some Dio_Configuration))
      (.FlipChannel 1) = true ∧
    ∃ s, Dio_Run (Dio_Startup 5 128 4 128) Dio_ExampleCalls = some s ∧
      ∀ c Level : Nat,
        ((∃ t, Dio_WriteChannel s c Level = some t) ∧
          (∃ t level, Dio_ReadChannel s c = some (t, level)) ∧
          (∃ t level, Dio_FlipChannel s c = some (t, level))) ∧
        (Dio_IndexesTable s (.WriteChannel c Level) = true →
          s.Dio_Status = DIO_INITIALIZED ∧ c < DIO_CONFIGURED_CHANNLES) ∧
        (Dio_IndexesTable s (.ReadChannel c) = true →
          s.Dio_Status = DIO_INITIALIZED ∧ c < DIO_CONFIGURED_CHANNLES) ∧
        (Dio_IndexesTable s (.FlipChannel c) = true →
          s.Dio_Status = DIO_INITIALIZED ∧ c < DIO_CONFIGURED_CHANNLES) ∧
        (s.Dio_Status = DIO_INITIALIZED → c < DIO_CONFIGURED_CHANNLES →
          ∃ Channels p, s.Dio_PortChannels = some Channels ∧
            Channels.length = DIO_CONFIGURED_CHANNLES ∧ Pin_Num s c = some p) :=
  ⟨by decide, by decide,
    Dio_table_access_guarded 5 128 4 128 Dio_ExampleCalls (by decide)⟩

/-! ## The reports of the channel services -/

/-- C15: in a state whose two private variables fit together, for every channel id and level,
each of `Dio_WriteChannel`, `Dio_ReadChannel` and `Dio_FlipChannel` has a result, and the error
codes of the reports it adds are exactly: `DIO_E_UNINIT` if and only if the status is not
INITIALIZED, followed by `DIO_E_PARAM_INVALID_CHANNEL_ID` if and only if the channel id is not
below `DIO_CONFIGURED_CHANNLES`; both in that order when both checks fail, none when both
pass. -/
theorem Dio_report_sequence (s : DioState) (c Level : Nat) (hcons : Dio_Consistent s) :
    ∃ tw tr tf levelr levelf repw repr repf,
      Dio_WriteChannel s c Level = some tw ∧ tw.Det_Errors = s.Det_Errors ++ repw ∧
      Dio_ReadChannel s c = some (tr, levelr) ∧ tr.Det_Errors = s.Det_Errors ++ repr ∧
      Dio_FlipChannel s c = some (tf, levelf) ∧ tf.Det_Errors = s.Det_Errors ++ repf ∧
      repw.map Det_Report.ErrorId =
        (if s.Dio_Status ≠ DIO_INITIALIZED then [DIO_E_UNINIT] else []) ++
          (if DIO_CONFIGURED_CHANNLES ≤ c then [DIO_E_PARAM_INVALID_CHANNEL_ID] else []) ∧
      repr.map Det_Report.ErrorId =
        (if s.Dio_Status ≠ DIO_INITIALIZED then [DIO_E_UNINIT] else []) ++
          (if DIO_CONFIGURED_CHANNLES ≤ c then [DIO_E_PARAM_INVALID_CHANNEL_ID] else []) ∧
      repf.map Det_Report.ErrorId =
        (if s.Dio_Status ≠ DIO_INITIALIZED then [DIO_E_UNINIT] else []) ++
          (if DIO_CONFIGURED_CHANNLES ≤ c then [DIO_E_PARAM_INVALID_CHANNEL_ID] else []) := by
  obtain ⟨⟨tw, hw⟩, ⟨tr, levelr, hr⟩, ⟨tf, levelf, hf⟩⟩ := Dio_services_total hcons c Level
  have hcodes : ∀ ApiId : Dio_ServiceId,
      (((if DIO_NOT_INITIALIZED = s.Dio_Status then
            [(⟨DIO_MODULE_ID, DIO_INSTANCE_ID, ApiId, DIO_E_UNINIT⟩ : Det_Report)] else []) ++
          (if DIO_CONFIGURED_CHANNLES ≤ c then
            [(⟨DIO_MODULE_ID, DIO_INSTANCE_ID, ApiId, DIO_E_PARAM_INVALID_CHANNEL_ID⟩ :
              Det_Report)]
           else [])).map Det_Report.ErrorId) =
        (if s.Dio_Status ≠ DIO_INITIALIZED then [DIO_E_UNINIT] else []) ++
          (if DIO_CONFIGURED_CHANNLES ≤ c then [DIO_E_PARAM_INVALID_CHANNEL_ID] else []) := by
    intro ApiId
    have hne : ¬ DIO_NOT_INITIALIZED = DIO_INITIALIZED := by decide
    rcases Dio_Consistent_status hcons with h1 | h0
    · by_cases hc : DIO_CONFIGURED_CHANNLES ≤ c <;> simp [h1, hc, hne]
    · by_cases hc : DIO_CONFIGURED_CHANNLES ≤ c <;> simp [h0, hc, hne]
  refine ⟨tw, tr, tf, levelr, levelf, _, _, _, hw, ?_, hr, ?_, hf, ?_,
    hcodes DIO_WRITE_CHANNEL_SID, hcodes DIO_READ_CHANNEL_SID, hcodes DIO_WRITE_CHANNEL_SID⟩
  · rw [(Dio_WriteChannel_frame hw).2.2, Dio_DetChecks_eq]
  · rw [(Dio_ReadChannel_frame hr).2.2, Dio_DetChecks_eq]
  · rw [(Dio_FlipChannel_frame hf).2.2, Dio_DetChecks_eq]

/-- Witness for C15: the start-up state and channel id 2, where both checks fail. -/
theorem Dio_report_sequence_witness :
    Dio_Consistent (Dio_Startup 5 128 4 128) ∧
    ∃ tw tr tf levelr levelf repw repr repf,
      Dio_WriteChannel (Dio_Startup 5 128 4 128) 2 STD_HIGH = some tw ∧
      tw.Det_Errors = (Dio_Startup 5 128 4 128).Det_Errors ++ repw ∧
      Dio_ReadChannel (Dio_Startup 5 128 4 128) 2 = some (tr, levelr) ∧
      tr.Det_Errors = (Dio_Startup 5 128 4 128).Det_Errors ++ repr ∧
      Dio_FlipChannel (Dio_Startup 5 128 4 128) 2 = some (tf, levelf) ∧
      tf.Det_Errors = (Dio_Startup 5 128 4 128).Det_Errors ++ repf ∧
      repw.map Det_Report.ErrorId =
        (if (Dio_Startup 5 128 4 128).Dio_Status ≠ DIO_INITIALIZED then [DIO_E_UNINIT]
          else []) ++
          (if DIO_CONFIGURED_CHANNLES ≤ 2 then [DIO_E_PARAM_INVALID_CHANNEL_ID] else []) ∧
      repr.map Det_Report.ErrorId =
        (if (Dio_Startup 5 128 4 128).Dio_Status ≠ DIO_INITIALIZED then [DIO_E_UNINIT]
          else []) ++
          (if DIO_CONFIGURED_CHANNLES ≤ 2 then [DIO_E_PARAM_INVALID_CHANNEL_ID] else []) ∧
      repf.map Det_Report.ErrorId =
        (if (Dio_Startup 5 128 4 128).Dio_Status ≠ DIO_INITIALIZED then [DIO_E_UNINIT]
          else []) ++
          (if DIO_CONFIGURED_CHANNLES ≤ 2 then [DIO_E_PARAM_INVALID_CHANNEL_ID] else []) :=
  ⟨by decide, Dio_report_sequence (Dio_Startup 5 128 4 128) 2 STD_HIGH (by decide)⟩

/-- C17: in a state whose two private variables fit together, for every channel id (and any
level handed to the write), `Dio_FlipChannel` and `Dio_WriteChannel` add the same reports, equal
as whole (module id, instance id, operation id, error code) records; every one of them carries
the operation id `DIO_WRITE_CHANNEL_SID`, none `DIO_FLIP_CHANNEL_SID`; and there is at least one
such report when a check fails. -/
theorem Dio_FlipChannel_reports_as_write (s : DioState) (c Level : Nat)
    (hcons : Dio_Consistent s) :
    ∃ tw tf levelf rep,
      Dio_WriteChannel s c Level = some tw ∧ Dio_FlipChannel s c = some (tf, levelf) ∧
      tw.Det_Errors = s.Det_Errors ++ rep ∧ tf.Det_Errors = s.Det_Errors ++ rep ∧
      (∀ r ∈ rep, r.ModuleId = DIO_MODULE_ID ∧ r.InstanceId = DIO_INSTANCE_ID ∧
        r.ApiId = DIO_WRITE_CHANNEL_SID ∧ r.ApiId ≠ DIO_FLIP_CHANNEL_SID) ∧
      (s.Dio_Status = DIO_NOT_INITIALIZED ∨ DIO_CONFIGURED_CHANNLES ≤ c → rep ≠ []) := by
  obtain ⟨⟨tw, hw⟩, _, ⟨tf, levelf, hf⟩⟩ := Dio_services_total hcons c Level
  refine ⟨tw, tf, levelf,
    (if DIO_NOT_INITIALIZED = s.Dio_Status then
        [(⟨DIO_MODULE_ID, DIO_INSTANCE_ID, DIO_WRITE_CHANNEL_SID, DIO_E_UNINIT⟩ : Det_Report)]
      else []) ++
      (if DIO_CONFIGURED_CHANNLES ≤ c then
        [(⟨DIO_MODULE_ID, DIO_INSTANCE_ID, DIO_WRITE_CHANNEL_SID,
            DIO_E_PARAM_INVALID_CHANNEL_ID⟩ : Det_Report)]
      else []),
    hw, hf, ?_, ?_, ?_, ?_⟩
  · rw [(Dio_WriteChannel_frame hw).2.2, Dio_DetChecks_eq]
  · rw [(Dio_FlipChannel_frame hf).2.2, Dio_DetChecks_eq]
  · intro r hr
    by_cases h1 : DIO_NOT_INITIALIZED = s.Dio_Status <;>
      by_cases h2 : DIO_CONFIGURED_CHANNLES ≤ c <;>
      simp [h1, h2] at hr
    · rcases hr with rfl | rfl <;> exact ⟨rfl, rfl, rfl, by decide⟩
    · subst hr; exact ⟨rfl, rfl, rfl, by decide⟩
    · subst hr; exact ⟨rfl, rfl, rfl, by decide⟩
  · intro hg
    by_cases h1 : DIO_NOT_INITIALIZED = s.Dio_Status <;>
      by_cases h2 : DIO_CONFIGURED_CHANNLES ≤ c <;>
      simp [h1, h2]
    rcases hg with h | h
    · exact h1 h.symm
    · exact h2 h

/-- Witness for C17: the start-up state and channel id 2, where both checks fail. -/
theorem Dio_FlipChannel_reports_as_write_witness :
    Dio_Consistent (Dio_Startup 5 128 4 128) ∧
    ∃ tw tf levelf rep,
      Dio_WriteChannel (Dio_Startup 5 128 4 128) 2 STD_HIGH = some tw ∧
      Dio_FlipChannel (Dio_Startup 5 128 4 128) 2 = some (tf, levelf) ∧
      tw.Det_Errors = (Dio_Startup 5 128 4 128).Det_Errors ++ rep ∧
      tf.Det_Errors = (Dio_Startup 5 128 4 128).Det_Errors ++ rep ∧
      (∀ r ∈ rep, r.ModuleId = DIO_MODULE_ID ∧ r.InstanceId = DIO_INSTANCE_ID ∧
        r.ApiId = DIO_WRITE_CHANNEL_SID ∧ r.ApiId ≠ DIO_FLIP_CHANNEL_SID) ∧
      ((Dio_Startup 5 128 4 128).Dio_Status = DIO_NOT_INITIALIZED ∨
        DIO_CONFIGURED_CHANNLES ≤ 2 → rep ≠ []) :=
  ⟨by decide, Dio_FlipChannel_reports_as_write (Dio_Startup 5 128 4 128) 2 STD_HIGH (by decide)⟩

end Dio
